import Mathlib

/-!
# Key exchange engine and adaptive position broadcast of the mesh node firmware

A shallow embedding of `src/mesh/CryptoEngine.cpp` and
`src/modules/PositionModule.cpp`, followed by theorems about the embedded
functions.

Conventions of the embedding:

* a byte buffer is a `List Nat` (every element below 256 for well-formed input);
* `memcpy(dst, src, n)` overwrites the first `n` bytes of `dst` (`memcpyAt`);
* unsigned machine integers are `Nat`, reduced `% 2 ^ w` where the source
  narrows or may wrap;
* libraries that are not part of the repository (Curve25519, BLAKE2b, the node
  directory, the air-time monitor, the clock, the packet allocator and the
  mesh service) are parameters, collected in `CryptoLib`, `NodeDB` and `Env`.
-/

namespace Meshtastic

/-! ## Byte buffers -/

/-- The call `memcpy(dst + off, src, n)`: bytes `off .. off+n` of `dst` are replaced by the
first `n` bytes of `src`, every other byte of `dst` is kept. -/
def memcpyAt (dst : List Nat) (off : Nat) (src : List Nat) (n : Nat) : List Nat :=
  dst.take off ++ src.take n ++ dst.drop (off + n)

/-- The call `memcpy(dst, src, n)` into a buffer `dst` of exactly `n` bytes: the content of
`dst` after the call. -/
def memcpy (src : List Nat) (n : Nat) : List Nat :=
  src.take n

/-- The call `memset(buf, v, n)` on a buffer of exactly `n` bytes. -/
def memset (v : Nat) (n : Nat) : List Nat :=
  List.replicate n v

/-- Object representation of an unsigned integer of `w` bytes on the little-endian
targets of the firmware: least significant byte first. -/
def leBytes : Nat → Nat → List Nat
  | 0, _ => []
  | w + 1, n => n % 256 :: leBytes w (n / 256)

/-- Value of a little-endian byte string; the inverse of `leBytes` on its range. -/
def leValue : List Nat → Nat
  | [] => 0
  | b :: bs => b + 256 * leValue bs

/-! ## External cryptographic libraries -/

/-- The two primitives of the external `Crypto` library that the engine calls.

* `dh2 k f` is the content of the 32-byte buffer `k` after `Curve25519::dh2(k, f)`.
* `blake2b data n` is the `n`-byte BLAKE2b digest of the byte string `data`. The streaming
  object `BLAKE2b` of the library is represented by the chunks it has absorbed
  (`BLAKE2bState`): `reset` empties it, `update` appends one chunk, and `finalize`
  returns the `blake2b` digest of the concatenation of the chunks. -/
structure CryptoLib where
  dh2 : List Nat → List Nat → List Nat
  blake2b : List Nat → Nat → List Nat

/-- State of a streaming `BLAKE2b` object: the chunks passed to `update` since `reset`,
oldest first. -/
abbrev BLAKE2bState := List (List Nat)

/-- The call `hash.reset()`. -/
def BLAKE2b_reset : BLAKE2bState := []

/-- The call `hash.update(data, len)` with `chunk` the `len` bytes at `data`. -/
def BLAKE2b_update (st : BLAKE2bState) (chunk : List Nat) : BLAKE2bState :=
  st ++ [chunk]

/-- The call `hash.finalize(out, len)`: the `len` bytes written to `out`. -/
def BLAKE2b_finalize (L : CryptoLib) (st : BLAKE2bState) (len : Nat) : List Nat :=
  L.blake2b st.flatten len

/-! ## `CryptoEngine` -/

/-- The struct `CryptoKey`: 32 key bytes and an explicit length tag. -/
structure CryptoKey where
  bytes : List Nat
  length : Int
  deriving DecidableEq, Repr

/-- The data members of `CryptoEngine` that the embedded functions touch. -/
structure CryptoEngine where
  public_key : List Nat
  private_key : List Nat
  key : CryptoKey
  nonce : List Nat
  deriving DecidableEq, Repr

/-- The part of the struct `NodeInfo` that the engine reads. -/
structure NodeInfo where
  num : Nat
  public_key : List Nat
  deriving DecidableEq, Repr

/-- The node directory as the engine sees it: `NodeDB n` is the record that
`*nodeDB.getNode(n)` copies into the local `node`. A peer the directory does not hold is
seen by the guards of the engine as a record with `num < 1`. -/
abbrev NodeDB := Nat → NodeInfo

/-- First byte of a key buffer, `public_key[0]`. -/
def firstByte (k : List Nat) : Nat := k.getD 0 0

/-- The loop of `CryptoEngine::hash`,
`for (posn = 0; posn < size; posn += inc) { len = size - posn; if (len > inc) len = inc;
hash.update(bytes + posn, len); }`, started at `posn` with digest state `st`. One unit of
fuel is spent per iteration; `none` means the loop was still running when the fuel ran out. -/
def hashLoop (bytes : List Nat) (size inc : Nat) : Nat → Nat → BLAKE2bState → Option BLAKE2bState
  | 0, posn, st => if posn < size then none else some st
  | fuel + 1, posn, st =>
    if posn < size then
      let len := size - posn
      let len := if len > inc then inc else len
      hashLoop bytes size inc fuel (posn + inc) (BLAKE2b_update st ((bytes.drop posn).take len))
    else some st

/-- The function `CryptoEngine::hash(bytes, numBytes)`: the buffer after the call. `size` is
an 8-bit copy of `numBytes`. The loop is given 256 units of fuel, the number of values of
the 8-bit bound. -/
def hash (L : CryptoLib) (bytes : List Nat) (numBytes : Nat) : Option (List Nat) :=
  let size := numBytes % 256
  let inc := 16
  match hashLoop bytes size inc 256 0 BLAKE2b_reset with
  | none => none
  | some st => some (memcpyAt bytes 0 (BLAKE2b_finalize L st 32) 32)

/-- The function `CryptoEngine::setKey`. -/
def setKey (e : CryptoEngine) (k : CryptoKey) : CryptoEngine :=
  { e with key := k }

/-- The guard `node.num < 1 || node.user.public_key[0] == 0` shared by `setDHKey`,
`encryptCurve25519_Blake2b` and `decryptCurve25519_Blake2b`. -/
def keyNotFound (node : NodeInfo) : Bool :=
  node.num < 1 || firstByte node.public_key == 0

/-- The function `CryptoEngine::setDHKey(nodeNum)`: the engine after the call (the function
returns `void`). `none` only if the loop of `hash` ran out of fuel. -/
def setDHKey (L : CryptoLib) (db : NodeDB) (e : CryptoEngine) (nodeNum : Nat) :
    Option CryptoEngine :=
  let node := db nodeNum
  if keyNotFound node then
    some e
  else
    let pubKey := node.public_key
    let shared_key := memcpy pubKey 32
    let local_priv := memcpy e.private_key 32
    let shared_key := L.dh2 shared_key local_priv
    match hash L shared_key 32 with
    | none => none
    | some shared_key =>
      let k : CryptoKey := { bytes := memcpy shared_key 32, length := 32 }
      some (setKey e k)

/-- The base class `CryptoEngine::encrypt`: it only logs a warning. The result is the engine
and the buffer after the call. -/
def encrypt (e : CryptoEngine) (_fromNode _packetId _numBytes : Nat) (bytes : List Nat) :
    CryptoEngine × List Nat :=
  (e, bytes)

/-- The base class `CryptoEngine::decrypt`: it only logs a warning. -/
def decrypt (e : CryptoEngine) (_fromNode _packetId _numBytes : Nat) (bytes : List Nat) :
    CryptoEngine × List Nat :=
  (e, bytes)

/-- The function `CryptoEngine::encryptCurve25519_Blake2b`: engine and buffer after the call. -/
def encryptCurve25519_Blake2b (L : CryptoLib) (db : NodeDB) (e : CryptoEngine)
    (toNode fromNode packetNum numBytes : Nat) (bytes : List Nat) :
    Option (CryptoEngine × List Nat) :=
  let node := db toNode
  if keyNotFound node then
    some (e, bytes)
  else
    match setDHKey L db e toNode with
    | none => none
    | some e1 => some (encrypt e1 fromNode packetNum numBytes bytes)

/-- The function `CryptoEngine::decryptCurve25519_Blake2b`: engine and buffer after the call. -/
def decryptCurve25519_Blake2b (L : CryptoLib) (db : NodeDB) (e : CryptoEngine)
    (fromNode packetNum numBytes : Nat) (bytes : List Nat) :
    Option (CryptoEngine × List Nat) :=
  let node := db fromNode
  if keyNotFound node then
    some (e, bytes)
  else
    match setDHKey L db e fromNode with
    | none => none
    | some e1 => some (decrypt e1 fromNode packetNum numBytes bytes)

/-- An implementation of the virtual methods `encrypt` / `decrypt`: from the engine (with
the key and nonce it holds), `fromNode`, `packetId`, `numBytes` and the buffer to the
engine and the buffer after the call. The base class provides `encrypt` and `decrypt`
above; a subclass may override them. -/
abbrev Cipher := CryptoEngine → Nat → Nat → Nat → List Nat → CryptoEngine × List Nat

/-- The function `CryptoEngine::encryptCurve25519_Blake2b` with the virtual call
`crypto->encrypt(..)` dispatched to `cipher`. -/
def encryptCurve25519_Blake2b_via (cipher : Cipher) (L : CryptoLib) (db : NodeDB)
    (e : CryptoEngine) (toNode fromNode packetNum numBytes : Nat) (bytes : List Nat) :
    Option (CryptoEngine × List Nat) :=
  let node := db toNode
  if keyNotFound node then
    some (e, bytes)
  else
    match setDHKey L db e toNode with
    | none => none
    | some e1 => some (cipher e1 fromNode packetNum numBytes bytes)

/-- The function `CryptoEngine::decryptCurve25519_Blake2b` with the virtual call
`crypto->decrypt(..)` dispatched to `cipher`. -/
def decryptCurve25519_Blake2b_via (cipher : Cipher) (L : CryptoLib) (db : NodeDB)
    (e : CryptoEngine) (fromNode packetNum numBytes : Nat) (bytes : List Nat) :
    Option (CryptoEngine × List Nat) :=
  let node := db fromNode
  if keyNotFound node then
    some (e, bytes)
  else
    match setDHKey L db e fromNode with
    | none => none
    | some e1 => some (cipher e1 fromNode packetNum numBytes bytes)

/-- The function `CryptoEngine::initNonce(fromNode, packetId)`: `fromNode` is a `uint32_t`,
`packetId` a `uint64_t`, the nonce has 16 bytes. -/
def initNonce (e : CryptoEngine) (fromNode packetId : Nat) : CryptoEngine :=
  let nonce := memset 0 16
  let nonce := memcpyAt nonce 0 (leBytes 8 (packetId % 2 ^ 64)) 8
  let nonce := memcpyAt nonce 8 (leBytes 4 (fromNode % 2 ^ 32)) 4
  { e with nonce := nonce }

/-! ## `PositionModule` -/

/-- The fields of `meshtastic_Position` that `allocReply` reads or writes. -/
structure Position where
  latitude_i : Int
  longitude_i : Int
  altitude : Int
  time : Nat
  altitude_hae : Int
  altitude_geoidal_separation : Int
  PDOP : Nat
  HDOP : Nat
  VDOP : Nat
  sats_in_view : Nat
  timestamp : Nat
  seq_number : Nat
  ground_track : Nat
  ground_speed : Nat
  deriving DecidableEq, Repr

/-- The initialiser `meshtastic_Position_init_default`: every field zero. -/
def Position_init_default : Position where
  latitude_i := 0
  longitude_i := 0
  altitude := 0
  time := 0
  altitude_hae := 0
  altitude_geoidal_separation := 0
  PDOP := 0
  HDOP := 0
  VDOP := 0
  sats_in_view := 0
  timestamp := 0
  seq_number := 0
  ground_track := 0
  ground_speed := 0

/-- The position stored with a node of the directory (`node->position`). -/
structure PositionLite where
  latitude_i : Int
  longitude_i : Int
  altitude : Int
  time : Nat
  deriving DecidableEq, Repr

/-- The part of `meshtastic_NodeInfoLite` that the module reads. -/
structure NodeInfoLite where
  has_position : Bool
  position : PositionLite
  deriving DecidableEq, Repr

/-- The two priorities that `sendOurPosition` assigns, and the one of a fresh packet. -/
inductive Priority where
  | UNSET
  | BACKGROUND
  | RELIABLE
  deriving DecidableEq, Repr

/-- The fields of `meshtastic_MeshPacket` that the module reads or writes; `payload` is the
position record encoded into `decoded.payload`, `sender` is the field `from` and `to_` the
field `to`. -/
structure MeshPacket where
  id : Nat
  sender : Nat
  to_ : Nat
  channel : Nat
  want_response : Bool
  priority : Priority
  payload : Position
  deriving DecidableEq, Repr

/-- A call the module makes on the mesh service (the Transmitter). `sendToMesh` is always
called with `RX_SRC_LOCAL` and `ccToPhone = true`. -/
inductive ServiceCall where
  | cancelSending (id : Nat)
  | sendToMesh (p : MeshPacket)
  deriving DecidableEq, Repr

/-- Bit masks `meshtastic_Config_PositionConfig_PositionFlags_*`; their values come from a
generated header that is not part of the sources. -/
structure PositionFlags where
  ALTITUDE : Nat
  ALTITUDE_MSL : Nat
  GEOIDAL_SEPARATION : Nat
  DOP : Nat
  HVDOP : Nat
  SATINVIEW : Nat
  SEQ_NO : Nat
  TIMESTAMP : Nat
  HEADING : Nat
  SPEED : Nat

/-- The configuration values read by the module (`config.position.*`, `config.device.role`). -/
structure Config where
  position_flags : Nat
  position_broadcast_secs : Nat
  position_broadcast_smart_enabled : Bool
  broadcast_smart_minimum_distance : Nat
  broadcast_smart_minimum_interval_secs : Nat
  role : Nat

/-- Everything the module takes from outside `src/`: constants of missing headers, the
configuration, and the external collaborators as functions.

* `now` is the value `millis()` returns during the call.
* `isTxAllowedChannelUtil polite` is `airTime->isTxAllowedChannelUtil(polite)`; the
  argument defaults to `false`, the relaxed gate.
* `latLongToMeter lat1 lon1 lat2 lon2` is `GeoCoord::latLongToMeter` applied to the four
  integer coordinates scaled by `1e-7`: the finite `float` it returns, as the rational number
  that float denotes.
* `refreshLocalMeshNode` is the effect of `service.refreshLocalMeshNode()` on the record of
  the local node; the call returns a pointer to that record.
* `updatePosition from p` is the effect of `nodeDB.updatePosition(from, p)` on the record
  of the local node.
* `perhapsSetRTC q secs` is the effect of `perhapsSetRTC(q, &tv)` on the clock quality.
* `allocDataPacket k` is the packet returned by the `k`-th call of the packet allocator. -/
structure Env where
  flags : PositionFlags
  Role_TRACKER : Nat
  Channel_Role_PRIMARY : Nat
  RTCQualityDevice : Nat
  RTCQualityFromNet : Nat
  NODENUM_BROADCAST : Nat
  default_broadcast_interval_secs : Nat
  config : Config
  now : Nat
  radioGeneration : Nat
  getNodeNum : Nat
  getFrom : MeshPacket → Nat
  channelRole : Nat → Nat
  getConfiguredOrDefaultMs : Nat → Nat → Nat
  isTxAllowedChannelUtil : Bool → Bool
  hasValidPosition : NodeInfoLite → Bool
  latLongToMeter : Int → Int → Int → Int → ℚ
  ConvertToPosition : PositionLite → Position
  refreshLocalMeshNode : NodeInfoLite → NodeInfoLite
  updatePosition : Nat → Position → NodeInfoLite → NodeInfoLite
  perhapsSetRTC : Nat → Nat → Nat → Nat
  allocDataPacket : Nat → MeshPacket

/-- The mutable state the module works on: its data members (`ignoreRequest` ..
`currentGeneration`), the global `localPosition`, the record of the local node in the
directory (the object that both `node` and `node2` point to), the clock quality, the number
of packets allocated so far, and the calls made on the mesh service, oldest first. -/
structure World where
  ignoreRequest : Bool
  lastGpsSend : Nat
  lastGpsLatitude : Int
  lastGpsLongitude : Int
  prevPacketId : Nat
  currentGeneration : Nat
  localPosition : Position
  node : NodeInfoLite
  rtcQuality : Nat
  allocated : Nat
  calls : List ServiceCall
  deriving DecidableEq, Repr

/-- The test `pos_flags & FLAG` used as a condition. -/
def flagSet (pos_flags flag : Nat) : Bool :=
  pos_flags &&& flag != 0

/-- Subtraction of `uint32_t` values, as in `now - lastGpsSend`. -/
def u32sub (a b : Nat) : Nat :=
  (a % 2 ^ 32 + 2 ^ 32 - b % 2 ^ 32) % 2 ^ 32

/-- The implicit conversion of a `uint32_t` to `float` (IEEE 754 binary32, round to
nearest, ties to even), as in `abs(distanceTraveledSinceLastSend) >= distanceTravelThreshold`
where the left side is a `float`. A value below `2^24` is kept; a larger one keeps its 24
leading bits, rounded, so the result is again a natural number. -/
def u32ToFloat (n : Nat) : Nat :=
  if n < 2 ^ 24 then n
  else
    let shift :=
      if n < 2 ^ 25 then 1 else if n < 2 ^ 26 then 2 else if n < 2 ^ 27 then 3
      else if n < 2 ^ 28 then 4 else if n < 2 ^ 29 then 5 else if n < 2 ^ 30 then 6
      else if n < 2 ^ 31 then 7 else 8
    let q := n / 2 ^ shift
    let r := n % 2 ^ shift
    let half := 2 ^ (shift - 1)
    if r > half ∨ (r = half ∧ q % 2 = 1) then (q + 1) * 2 ^ shift else q * 2 ^ shift

/-- Modelled from the spec: `allocDataProtobuf` is declared in a header that is not part of
the sources. It takes a packet from the allocator and encodes the position record into its
payload ("construct the outbound payload"). The result is the packet and the world with
the allocation counted. -/
def allocDataProtobuf (env : Env) (w : World) (p : Position) : MeshPacket × World :=
  ({ env.allocDataPacket w.allocated with payload := p }, { w with allocated := w.allocated + 1 })

/-- Lines 74 and 81 to 126 of `PositionModule::allocReply`: the record `p` that is
populated from `localPosition` (already refreshed and with its sequence number
incremented) under the bit mask `pos_flags`, and whose time is stripped when the clock
quality `getRTCQuality()` is below `RTCQualityDevice`. -/
def populatePosition (env : Env) (localPosition : Position) (rtcQuality : Nat) : Position :=
  let pos_flags := env.config.position_flags
  let p := Position_init_default
  let p := { p with latitude_i := localPosition.latitude_i }
  let p := { p with longitude_i := localPosition.longitude_i }
  let p := { p with time := localPosition.time }
  let p :=
    if flagSet pos_flags env.flags.ALTITUDE then
      let p :=
        if flagSet pos_flags env.flags.ALTITUDE_MSL then
          { p with altitude := localPosition.altitude }
        else
          { p with altitude_hae := localPosition.altitude_hae }
      if flagSet pos_flags env.flags.GEOIDAL_SEPARATION then
        { p with altitude_geoidal_separation := localPosition.altitude_geoidal_separation }
      else p
    else p
  let p :=
    if flagSet pos_flags env.flags.DOP then
      if flagSet pos_flags env.flags.HVDOP then
        { p with HDOP := localPosition.HDOP, VDOP := localPosition.VDOP }
      else
        { p with PDOP := localPosition.PDOP }
    else p
  let p :=
    if flagSet pos_flags env.flags.SATINVIEW then
      { p with sats_in_view := localPosition.sats_in_view }
    else p
  let p :=
    if flagSet pos_flags env.flags.TIMESTAMP then
      { p with timestamp := localPosition.timestamp }
    else p
  let p :=
    if flagSet pos_flags env.flags.SEQ_NO then
      { p with seq_number := localPosition.seq_number }
    else p
  let p :=
    if flagSet pos_flags env.flags.HEADING then
      { p with ground_track := localPosition.ground_track }
    else p
  let p :=
    if flagSet pos_flags env.flags.SPEED then
      { p with ground_speed := localPosition.ground_speed }
    else p
  if rtcQuality < env.RTCQualityDevice then
    { p with time := 0 }
  else p

/-- The function `PositionModule::allocReply`. The outer `Option` is `none` when
`assert(node->has_position)` fails; the inner one is `none` for the `nullptr` result. The
body between the increment of the sequence number and `allocDataProtobuf(p)` is
`populatePosition`. -/
def allocReply (env : Env) (w : World) : Option (Option MeshPacket × World) :=
  if w.ignoreRequest then
    some (none, w)
  else
    let node := env.refreshLocalMeshNode w.node
    let w := { w with node := node }
    if !node.has_position then
      none
    else
      let localPosition :=
        if w.localPosition.latitude_i = (0 : Int) ∧ w.localPosition.longitude_i = (0 : Int) then
          env.ConvertToPosition node.position
        else w.localPosition
      let localPosition :=
        { localPosition with seq_number := (localPosition.seq_number + 1) % 2 ^ 32 }
      let w := { w with localPosition := localPosition }
      let p := populatePosition env localPosition w.rtcQuality
      let (pkt, w) := allocDataProtobuf env w p
      some (some pkt, w)

/-- The function `PositionModule::sendOurPosition(dest, wantReplies, channel)`; `none` when
the assertion of `allocReply` fails. -/
def sendOurPosition (env : Env) (w : World) (dest : Nat) (wantReplies : Bool) (channel : Nat) :
    Option World :=
  let w :=
    if w.prevPacketId != 0 then
      { w with calls := w.calls ++ [ServiceCall.cancelSending w.prevPacketId] }
    else w
  match allocReply env w with
  | none => none
  | some (none, w) => some w
  | some (some p, w) =>
    let p := { p with to_ := dest }
    let p := { p with want_response := wantReplies }
    let p :=
      if env.config.role = env.Role_TRACKER then
        { p with priority := Priority.RELIABLE }
      else
        { p with priority := Priority.BACKGROUND }
    let w := { w with prevPacketId := p.id }
    let p := if channel > 0 then { p with channel := channel } else p
    some { w with calls := w.calls ++ [ServiceCall.sendToMesh p] }

/-- The distance threshold of `runOnce` and `handleNewPosition`:
`broadcast_smart_minimum_distance > 0 ? broadcast_smart_minimum_distance : 100`. -/
def distanceTravelThreshold (env : Env) : Nat :=
  if env.config.broadcast_smart_minimum_distance > 0 then
    env.config.broadcast_smart_minimum_distance
  else 100

/-- The function `PositionModule::runOnce`: the delay it returns and the world after the
call; `none` when the assertion of `allocReply` fails. `sendOurPosition` is called without
a channel, which defaults to 0. -/
def runOnce (env : Env) (w : World) : Option (Int × World) :=
  let now := env.now
  let intervalMs :=
    env.getConfiguredOrDefaultMs env.config.position_broadcast_secs
      env.default_broadcast_interval_secs
  let msSinceLastSend := u32sub now w.lastGpsSend
  if w.lastGpsSend = 0 ∨ msSinceLastSend ≥ intervalMs then
    if env.isTxAllowedChannelUtil false then
      if env.hasValidPosition w.node then
        let w := { w with lastGpsSend := now }
        let w := { w with lastGpsLatitude := w.node.position.latitude_i }
        let w := { w with lastGpsLongitude := w.node.position.longitude_i }
        let requestReplies := w.currentGeneration != env.radioGeneration
        let w := { w with currentGeneration := env.radioGeneration }
        match sendOurPosition env w env.NODENUM_BROADCAST requestReplies 0 with
        | none => none
        | some w => some (5000, w)
      else some (5000, w)
    else some (5000, w)
  else if env.config.position_broadcast_smart_enabled then
    if env.isTxAllowedChannelUtil (env.config.role != env.Role_TRACKER) then
      let w := { w with node := env.refreshLocalMeshNode w.node }
      if env.hasValidPosition w.node then
        let minimumTimeThreshold :=
          env.getConfiguredOrDefaultMs env.config.broadcast_smart_minimum_interval_secs 30
        let distanceTraveledSinceLastSend :=
          env.latLongToMeter w.lastGpsLatitude w.lastGpsLongitude
            w.node.position.latitude_i w.node.position.longitude_i
        if |distanceTraveledSinceLastSend| ≥ (u32ToFloat (distanceTravelThreshold env) : ℚ) ∧
            msSinceLastSend ≥ minimumTimeThreshold then
          let requestReplies := w.currentGeneration != env.radioGeneration
          let w := { w with currentGeneration := env.radioGeneration }
          match sendOurPosition env w env.NODENUM_BROADCAST requestReplies 0 with
          | none => none
          | some w =>
            let w := { w with lastGpsLatitude := w.node.position.latitude_i }
            let w := { w with lastGpsLongitude := w.node.position.longitude_i }
            let w := { w with lastGpsSend := now }
            some (5000, w)
        else some (5000, w)
      else some (5000, w)
    else some (5000, w)
  else some (5000, w)

/-- The function `PositionModule::handleNewPosition`; `none` when the assertion of
`allocReply` fails. -/
def handleNewPosition (env : Env) (w : World) : Option World :=
  let w := { w with node := env.refreshLocalMeshNode w.node }
  let now := env.now
  if env.hasValidPosition w.node then
    let distanceTraveledSinceLastSend :=
      env.latLongToMeter w.lastGpsLatitude w.lastGpsLongitude
        w.node.position.latitude_i w.node.position.longitude_i
    if |distanceTraveledSinceLastSend| ≥ (u32ToFloat (distanceTravelThreshold env) : ℚ) then
      let requestReplies := w.currentGeneration != env.radioGeneration
      let w := { w with currentGeneration := env.radioGeneration }
      match sendOurPosition env w env.NODENUM_BROADCAST requestReplies 0 with
      | none => none
      | some w =>
        let w := { w with lastGpsLatitude := w.node.position.latitude_i }
        let w := { w with lastGpsLongitude := w.node.position.longitude_i }
        let w := { w with lastGpsSend := now }
        some w
    else some w
  else some w

/-- The function `PositionModule::handleReceivedProtobuf(mp, pptr)` with `p` the decoded
position: its result (always `false`) and the world after the call; `none` when the
assertion of `allocReply` fails inside `handleNewPosition`. -/
def handleReceivedProtobuf (env : Env) (w : World) (mp : MeshPacket) (p : Position) :
    Option (Bool × World) :=
  let w :=
    if p.time != 0 then
      let secs := p.time
      { w with rtcQuality := env.perhapsSetRTC env.RTCQualityFromNet secs w.rtcQuality }
    else w
  let w := { w with node := env.updatePosition (env.getFrom mp) p w.node }
  let w :=
    if env.channelRole mp.channel = env.Channel_Role_PRIMARY then
      { w with ignoreRequest := false }
    else
      { w with ignoreRequest := true }
  if env.getNodeNum = env.getFrom mp then
    match handleNewPosition env w with
    | none => none
    | some w => some (false, w)
  else some (false, w)

/-- The packets handed to `sendToMesh` among a list of service calls, oldest first. -/
def sentPackets (calls : List ServiceCall) : List MeshPacket :=
  calls.filterMap fun c =>
    match c with
    | ServiceCall.sendToMesh p => some p
    | ServiceCall.cancelSending _ => none

/-! ## Derived notions used to state the theorems -/

/-- The value of the global `localPosition` after a call of `allocReply` that builds a
payload: replaced by the directory position when both coordinates were zero, and with the
sequence number incremented. -/
def nextLocalPosition (env : Env) (w : World) : Position :=
  let lp :=
    if w.localPosition.latitude_i = (0 : Int) ∧ w.localPosition.longitude_i = (0 : Int) then
      env.ConvertToPosition (env.refreshLocalMeshNode w.node).position
    else w.localPosition
  { lp with seq_number := (lp.seq_number + 1) % 2 ^ 32 }

/-- The service calls that one run of `sendOurPosition` adds when `allocReply` supplies the
packet `p`: the cancellation of the remembered packet if its id is not zero, then the
hand-over of `p`. -/
def sendCalls (prevPacketId : Nat) (p : MeshPacket) : List ServiceCall :=
  (if prevPacketId != 0 then [ServiceCall.cancelSending prevPacketId] else []) ++
    [ServiceCall.sendToMesh p]

/-- The packet that `sendOurPosition(dest, wantReplies, channel)` hands to the mesh service
when `allocReply` builds a payload: the allocated packet with the payload, the destination,
the reply request, the priority chosen by the device role, and the channel if it is not 0. -/
def outboundPacket (env : Env) (w : World) (dest : Nat) (wantReplies : Bool) (channel : Nat) :
    MeshPacket :=
  { id := (env.allocDataPacket w.allocated).id,
    sender := (env.allocDataPacket w.allocated).sender,
    to_ := dest,
    channel := if channel > 0 then channel else (env.allocDataPacket w.allocated).channel,
    want_response := wantReplies,
    priority :=
      if env.config.role = env.Role_TRACKER then Priority.RELIABLE else Priority.BACKGROUND,
    payload := populatePosition env (nextLocalPosition env w) w.rtcQuality }

/-- The condition under which `runOnce` reaches its first call of `sendOurPosition`: the
base interval has elapsed or nothing was sent yet, the relaxed gate allows transmission
and the directory record of the local node holds a valid position. -/
def baseSendDecision (env : Env) (w : World) : Prop :=
  (w.lastGpsSend = 0 ∨
    u32sub env.now w.lastGpsSend ≥
      env.getConfiguredOrDefaultMs env.config.position_broadcast_secs
        env.default_broadcast_interval_secs) ∧
  env.isTxAllowedChannelUtil false = true ∧
  env.hasValidPosition w.node = true

/-- The condition under which `runOnce` reaches its second call of `sendOurPosition`. -/
def smartSendDecision (env : Env) (w : World) : Prop :=
  ¬ (w.lastGpsSend = 0 ∨
    u32sub env.now w.lastGpsSend ≥
      env.getConfiguredOrDefaultMs env.config.position_broadcast_secs
        env.default_broadcast_interval_secs) ∧
  env.config.position_broadcast_smart_enabled = true ∧
  env.isTxAllowedChannelUtil (env.config.role != env.Role_TRACKER) = true ∧
  env.hasValidPosition (env.refreshLocalMeshNode w.node) = true ∧
  |env.latLongToMeter w.lastGpsLatitude w.lastGpsLongitude
      (env.refreshLocalMeshNode w.node).position.latitude_i
      (env.refreshLocalMeshNode w.node).position.longitude_i| ≥
    (u32ToFloat (distanceTravelThreshold env) : ℚ) ∧
  u32sub env.now w.lastGpsSend ≥
    env.getConfiguredOrDefaultMs env.config.broadcast_smart_minimum_interval_secs 30

/-- The condition under which `handleNewPosition` reaches its call of `sendOurPosition`. -/
def immediateSendDecision (env : Env) (w : World) : Prop :=
  env.hasValidPosition (env.refreshLocalMeshNode w.node) = true ∧
  |env.latLongToMeter w.lastGpsLatitude w.lastGpsLongitude
      (env.refreshLocalMeshNode w.node).position.latitude_i
      (env.refreshLocalMeshNode w.node).position.longitude_i| ≥
    (u32ToFloat (distanceTravelThreshold env) : ℚ)

/-- What a fired send decision does through `sendOurPosition`, from the world `w` before
the call to the world `w1` after it, with `p` the packet handed over: the remembered packet
is cancelled iff its id is not zero, then `p` is handed to `sendToMesh`, `p` has the
priority chosen by the device role, its id is remembered, `lastGpsSend` is the time of the
decision, and `p` carries the coordinates of the global `localPosition`. -/
def sendEffects (env : Env) (w : World) (p : MeshPacket) (w1 : World) : Prop :=
  w1.calls =
    w.calls ++ (if w.prevPacketId != 0 then [ServiceCall.cancelSending w.prevPacketId] else [])
      ++ [ServiceCall.sendToMesh p] ∧
  p.priority =
    (if env.config.role = env.Role_TRACKER then Priority.RELIABLE else Priority.BACKGROUND) ∧
  w1.prevPacketId = p.id ∧
  w1.lastGpsSend = env.now ∧
  p.payload.latitude_i = w1.localPosition.latitude_i ∧
  p.payload.longitude_i = w1.localPosition.longitude_i

/-- The field-disclosure filter in the words of the specification, to be compared with
`populatePosition`. Latitude, longitude and time are the base fields; the time is zeroed
when `stripTime` is set (clock tier below the device tier). The bit mask enables,
independently: altitude, as mean-sea-level altitude or as height above the ellipsoid but
not both, with the geoidal separation under its own bit; dilution of precision, as the
horizontal/vertical pair or as the single combined value but not both; satellite count,
timestamp, sequence number, heading and speed. A field that is not enabled is absent,
which the wire record encodes as zero. -/
def disclosedPosition (flags : PositionFlags) (pos_flags : Nat) (stripTime : Bool)
    (lp : Position) : Position where
  latitude_i := lp.latitude_i
  longitude_i := lp.longitude_i
  time := if stripTime then 0 else lp.time
  altitude :=
    if flagSet pos_flags flags.ALTITUDE && flagSet pos_flags flags.ALTITUDE_MSL then lp.altitude
    else 0
  altitude_hae :=
    if flagSet pos_flags flags.ALTITUDE && !flagSet pos_flags flags.ALTITUDE_MSL then
      lp.altitude_hae
    else 0
  altitude_geoidal_separation :=
    if flagSet pos_flags flags.ALTITUDE && flagSet pos_flags flags.GEOIDAL_SEPARATION then
      lp.altitude_geoidal_separation
    else 0
  PDOP := if flagSet pos_flags flags.DOP && !flagSet pos_flags flags.HVDOP then lp.PDOP else 0
  HDOP := if flagSet pos_flags flags.DOP && flagSet pos_flags flags.HVDOP then lp.HDOP else 0
  VDOP := if flagSet pos_flags flags.DOP && flagSet pos_flags flags.HVDOP then lp.VDOP else 0
  sats_in_view := if flagSet pos_flags flags.SATINVIEW then lp.sats_in_view else 0
  timestamp := if flagSet pos_flags flags.TIMESTAMP then lp.timestamp else 0
  seq_number := if flagSet pos_flags flags.SEQ_NO then lp.seq_number else 0
  ground_track := if flagSet pos_flags flags.HEADING then lp.ground_track else 0
  ground_speed := if flagSet pos_flags flags.SPEED then lp.ground_speed else 0

/-- The chunking of the specification, to be compared with the loop of `hash`: `data` cut
into `n` consecutive chunks of 16 bytes, the last one holding what is left. -/
def chunkList (data : List Nat) : Nat → List (List Nat)
  | 0 => []
  | n + 1 => data.take 16 :: chunkList (data.drop 16) n

/-- The key that `setDHKey` derives for the peer `nodeNum` on an engine with the private
key `private_key`: the 32-byte digest of the Curve25519 output, with length 32. It does
not depend on the key slot. -/
def derivedKey (L : CryptoLib) (db : NodeDB) (private_key : List Nat) (nodeNum : Nat) :
    CryptoKey where
  bytes := L.blake2b (L.dh2 (memcpy (db nodeNum).public_key 32) (memcpy private_key 32)) 32
  length := 32

/-! ## Sample values

Small concrete libraries, directories and engines on which the theorems below are
instantiated. -/

/-- A stand-in for the external library: `dh2` multiplies the two 32-byte buffers bytewise,
`blake2b` spreads the byte sum of its input over the requested length. -/
def sampleLib : CryptoLib where
  dh2 := fun k f => (List.range 32).map (fun i => (k.getD i 0 * f.getD i 0) % 256)
  blake2b := fun d n => (List.range n).map (fun i => (d.sum + 7 * i) % 256)

/-- A directory that holds node 5 (public key `03 03 ..`), node 9 (all-zero public key) and
no other node. -/
def sampleDB : NodeDB := fun n =>
  if n = 5 then { num := 5, public_key := List.replicate 32 3 }
  else if n = 9 then { num := 9, public_key := List.replicate 32 0 }
  else { num := 0, public_key := List.replicate 32 0 }

/-- An engine whose key slot holds a key `aa aa ..` cached for an earlier peer. -/
def sampleEngine : CryptoEngine where
  public_key := List.replicate 32 1
  private_key := List.replicate 32 2
  key := { bytes := List.replicate 32 170, length := 32 }
  nonce := List.replicate 16 255

/-- An engine whose key slot already holds the key that `setDHKey` derives for node 5 of the
sample directory. -/
def sampleEngineFor5 : CryptoEngine :=
  { sampleEngine with key :=
      { bytes := sampleLib.blake2b (List.replicate 32 6) 32, length := 32 } }

/-- A directory that holds only node `num`, with the public key `pub`. -/
def sampleDBWith (num : Nat) (pub : List Nat) : NodeDB := fun n =>
  if n = num then { num := num, public_key := pub }
  else { num := 0, public_key := List.replicate 32 0 }

/-- An engine with the private key `priv` and the public key `3 * priv` of the sample
library, and an empty key slot. -/
def sampleEngineWith (priv : List Nat) : CryptoEngine where
  public_key := priv.map (fun b => (3 * b) % 256)
  private_key := priv
  key := { bytes := List.replicate 32 0, length := 0 }
  nonce := List.replicate 16 0

/-- A public key whose first byte is zero and whose other 31 bytes are not. -/
def sampleKeyLeadingZero : List Nat := 0 :: List.replicate 31 1

/-- A cipher that shows which key it ran with: it adds the first byte of the key in the
slot to every byte of the buffer. -/
def sampleCipher : Cipher := fun e _ _ _ bytes =>
  (e, bytes.map (fun b => (b + e.key.bytes.headD 0) % 256))

/-- Flag masks as in the generated header of the firmware. -/
def sampleFlags : PositionFlags where
  ALTITUDE := 1
  ALTITUDE_MSL := 2
  GEOIDAL_SEPARATION := 4
  DOP := 8
  HVDOP := 16
  SATINVIEW := 32
  SEQ_NO := 64
  TIMESTAMP := 128
  HEADING := 256
  SPEED := 512

/-- A configuration: no optional field disclosed, broadcast every 900 s, smart broadcast
enabled with the default distance and interval, role 0 (not a tracker). -/
def sampleConfig : Config where
  position_flags := 0
  position_broadcast_secs := 900
  position_broadcast_smart_enabled := true
  broadcast_smart_minimum_distance := 0
  broadcast_smart_minimum_interval_secs := 0
  role := 0

/-- An environment at `millis() = 100000`: the utilization gate is given by the percentage
`util` (relaxed below 40, strict below 25), the signed distance is the sum of the two
coordinate differences, the local node is 42, channel 0 is the primary channel. -/
def sampleEnv (util : Nat) : Env where
  flags := sampleFlags
  Role_TRACKER := 5
  Channel_Role_PRIMARY := 1
  RTCQualityDevice := 1
  RTCQualityFromNet := 2
  NODENUM_BROADCAST := 0xffffffff
  default_broadcast_interval_secs := 900
  config := sampleConfig
  now := 100000
  radioGeneration := 3
  getNodeNum := 42
  getFrom := fun mp => if mp.sender = 0 then 42 else mp.sender
  channelRole := fun c => if c = 0 then 1 else 2
  getConfiguredOrDefaultMs := fun c d => if c > 0 then c * 1000 else d * 1000
  isTxAllowedChannelUtil := fun polite => decide (util < (if polite then 25 else 40))
  hasValidPosition := fun n =>
    n.has_position && (n.position.latitude_i != 0 || n.position.longitude_i != 0)
  latLongToMeter := fun a b c d => (((c - a) + (d - b) : Int) : ℚ)
  ConvertToPosition := fun l =>
    { Position_init_default with
      latitude_i := l.latitude_i, longitude_i := l.longitude_i, altitude := l.altitude,
      time := l.time }
  refreshLocalMeshNode := fun n =>
    if n.has_position then n
    else { has_position := true, position := { latitude_i := 0, longitude_i := 0, altitude := 0, time := 0 } }
  updatePosition := fun f p n =>
    if f = 42 then
      { has_position := true,
        position := { latitude_i := p.latitude_i, longitude_i := p.longitude_i,
                      altitude := p.altitude, time := p.time } }
    else n
  perhapsSetRTC := fun q _ cur => if q > cur then q else cur
  allocDataPacket := fun k =>
    { id := 1000 + k, sender := 42, to_ := 0, channel := 0, want_response := false,
      priority := Priority.UNSET, payload := Position_init_default }

/-- A freshly started module (nothing sent yet) on a node whose directory record holds the
fix `(500, 600)`. -/
def sampleWorld : World where
  ignoreRequest := false
  lastGpsSend := 0
  lastGpsLatitude := 0
  lastGpsLongitude := 0
  prevPacketId := 0
  currentGeneration := 0
  localPosition := Position_init_default
  node := { has_position := true, position := { latitude_i := 500, longitude_i := 600, altitude := 10, time := 77 } }
  rtcQuality := 0
  allocated := 0
  calls := []

/-- The sample world on a node that has no fix yet. -/
def sampleWorldNoFix : World :=
  { sampleWorld with
    node := { has_position := false,
              position := { latitude_i := 0, longitude_i := 0, altitude := 0, time := 0 } } }

/-- The sample world after a position packet arrived on a secondary channel: replies are
suppressed. -/
def sampleWorldIgnoring : World :=
  { sampleWorld with ignoreRequest := true }

/-- A world 30000 ms after a send from `(440, 560)`, with packet 77 remembered: the fix
`(500, 600)` of the directory is at signed distance 100 from the last sent position. -/
def sampleWorldMoved : World :=
  { sampleWorld with
    lastGpsSend := 70000, lastGpsLatitude := 440, lastGpsLongitude := 560,
    prevPacketId := 77, currentGeneration := 3 }

/-- A world whose global `localPosition` holds the fix `(111, 222)` with time 5555 and
sequence number 8 while the directory record of the local node holds `(500, 600)`. -/
def sampleWorldLocalFix : World :=
  { sampleWorld with
    localPosition :=
      { Position_init_default with
        latitude_i := 111, longitude_i := 222, time := 5555, seq_number := 8 } }

/-- The sample environment with the flag mask `pos_flags`. -/
def sampleEnvFlags (pos_flags : Nat) : Env :=
  { sampleEnv 10 with config := { sampleConfig with position_flags := pos_flags } }

/-- A world whose global `localPosition` has every field set; its sequence number is 8. -/
def sampleWorldAllFields : World :=
  { sampleWorld with
    localPosition :=
      { latitude_i := 111, longitude_i := 222, altitude := 30, time := 5555,
        altitude_hae := 40, altitude_geoidal_separation := 5, PDOP := 7, HDOP := 8, VDOP := 9,
        sats_in_view := 11, timestamp := 1234, seq_number := 8, ground_track := 90,
        ground_speed := 3 } }

/-- A world whose global `localPosition` has no coordinates yet and sequence number 8. -/
def sampleWorldSeq : World :=
  { sampleWorld with localPosition := { Position_init_default with seq_number := 8 } }

/-- A world 30000 ms after a send from `(450, 500)`, with packet 77 remembered and replies
suppressed: the fix `(500, 600)` of the directory is at signed distance 150 from the last
sent position. -/
def sampleWorldMovedIgnoring : World :=
  { sampleWorld with
    ignoreRequest := true,
    lastGpsSend := 70000, lastGpsLatitude := 450, lastGpsLongitude := 500,
    prevPacketId := 77, currentGeneration := 3 }

/-- A world 30000 ms after a send from `(470, 580)`: the fix `(500, 600)` of the directory
is at signed distance 50 from the last sent position. -/
def sampleWorldNear : World :=
  { sampleWorld with
    lastGpsSend := 70000, lastGpsLatitude := 470, lastGpsLongitude := 580,
    prevPacketId := 77, currentGeneration := 3 }

/-- The sample environment with the configured minimum distance `thr`. -/
def sampleEnvThreshold (thr : Nat) : Env :=
  { sampleEnv 10 with config := { sampleConfig with broadcast_smart_minimum_distance := thr } }

/-- A world 30000 ms after a send from `(-16776716, 600)`, with packet 77 remembered: the
fix `(500, 600)` of the directory is at signed distance 16777216 = 2^24 from the last sent
position. -/
def sampleWorldFloatEdge : World :=
  { sampleWorld with
    lastGpsSend := 70000, lastGpsLatitude := -16776716, lastGpsLongitude := 600,
    prevPacketId := 77, currentGeneration := 3 }

/-- A position packet from node 7 received on `channel`. -/
def samplePacket (channel : Nat) : MeshPacket where
  id := 31
  sender := 7
  to_ := 0xffffffff
  channel := channel
  want_response := true
  priority := Priority.BACKGROUND
  payload := Position_init_default

/-! ## Lemmas on byte strings -/

theorem length_leBytes (w n : Nat) : (leBytes w n).length = w := by
  induction w generalizing n with
  | zero => rfl
  | succ w ih => simp [leBytes, ih]

theorem leValue_leBytes (w n : Nat) : leValue (leBytes w n) = n % 256 ^ w := by
  induction w generalizing n with
  | zero => simp [leBytes, leValue, Nat.mod_one]
  | succ w ih =>
    simp only [leBytes, leValue, ih]
    rw [pow_succ, Nat.mul_comm (256 ^ w) 256, Nat.mod_mul]

theorem leBytes_injective (w a b : Nat) (ha : a < 256 ^ w) (hb : b < 256 ^ w)
    (h : leBytes w a = leBytes w b) : a = b := by
  have h1 := congrArg leValue h
  rwa [leValue_leBytes, leValue_leBytes, Nat.mod_eq_of_lt ha, Nat.mod_eq_of_lt hb] at h1

/-- The nonce written by `initNonce`, as one concatenation. -/
theorem initNonce_nonce (e : CryptoEngine) (s n : Nat) :
    (initNonce e s n).nonce =
      leBytes 8 (n % 2 ^ 64) ++ (leBytes 4 (s % 2 ^ 32) ++ [0, 0, 0, 0]) := by
  have h8 := length_leBytes 8 (n % 2 ^ 64)
  have h4 := length_leBytes 4 (s % 2 ^ 32)
  simp only [initNonce, memcpyAt, memset]
  rw [List.take_of_length_le (le_of_eq h8), List.take_of_length_le (le_of_eq h4)]
  simp [List.take_append_eq_append_take, List.drop_append_eq_append_drop, h8, h4,
    List.take_of_length_le, List.drop_of_length_le]
  rfl

/-- With eight chunks of fuel or more, the loop of `hash` over a 32-byte bound runs to its
exit and has absorbed bytes `0..16` and `16..32` of the buffer. -/
theorem hashLoop_32 (bytes : List Nat) :
    hashLoop bytes 32 16 256 0 BLAKE2b_reset =
      some [(bytes.drop 0).take 16, (bytes.drop 16).take 16] := by
  simp [hashLoop, BLAKE2b_update, BLAKE2b_reset]

/-- On a 32-byte buffer `hash(bytes, 32)` replaces the buffer by the 32-byte digest of its
content. -/
theorem hash_32 (L : CryptoLib) (bytes : List Nat) (hlen : bytes.length = 32)
    (hb : ∀ d, (L.blake2b d 32).length = 32) :
    hash L bytes 32 = some (L.blake2b bytes 32) := by
  have h1 : List.take 16 bytes ++ List.take 16 (List.drop 16 bytes) = bytes := by
    have : List.take 16 (List.drop 16 bytes) = List.drop 16 bytes :=
      List.take_of_length_le (by simp [hlen])
    rw [this, List.take_append_drop]
  simp only [hash, Nat.reduceMod, hashLoop_32, memcpyAt, BLAKE2b_finalize, List.drop_zero,
    List.flatten, List.append_nil, h1, List.take_zero, List.nil_append, Nat.zero_add]
  rw [List.take_of_length_le (le_of_eq (hb bytes)), List.drop_of_length_le (le_of_eq hlen),
    List.append_nil]

/-! ## Lemmas on the loop of `hash` -/

/-- With enough fuel the loop of `hash` runs to its exit and has appended to the digest
state the chunks of bytes `posn ..< size` of the buffer. -/
theorem hashLoop_eq (bytes : List Nat) (size : Nat) :
    ∀ (fuel posn : Nat) (st : BLAKE2bState), (size - posn + 15) / 16 ≤ fuel →
      hashLoop bytes size 16 fuel posn st =
        some (st ++ chunkList ((bytes.take size).drop posn) ((size - posn + 15) / 16)) := by
  intro fuel
  induction fuel with
  | zero =>
    intro posn st h
    have hn : (size - posn + 15) / 16 = 0 := by omega
    have hlt : ¬ posn < size := by omega
    simp [hashLoop, hlt, hn, chunkList]
  | succ fuel ih =>
    intro posn st h
    by_cases hlt : posn < size
    · have hn : (size - posn + 15) / 16 = (size - (posn + 16) + 15) / 16 + 1 := by omega
      have hchunk : List.take (if size - posn > 16 then 16 else size - posn) (List.drop posn bytes)
          = List.take 16 (List.drop posn (List.take size bytes)) := by
        rw [List.drop_take, List.take_take]
        congr 1
        split_ifs <;> omega
      simp only [hashLoop, hlt, if_true, BLAKE2b_update]
      rw [ih (posn + 16) _ (by omega), hn, hchunk]
      simp only [chunkList, List.drop_drop, List.append_assoc, List.singleton_append]
    · have hn : (size - posn + 15) / 16 = 0 := by omega
      simp [hashLoop, hlt, hn, chunkList]

/-- Chunks that cover the data concatenate to the data. -/
theorem chunkList_flatten (n : Nat) :
    ∀ data : List Nat, data.length ≤ 16 * n → (chunkList data n).flatten = data := by
  induction n with
  | zero =>
    intro data h
    have : data = [] := List.length_eq_zero.mp (by omega)
    simp [chunkList, this]
  | succ n ih =>
    intro data h
    simp only [chunkList, List.flatten_cons]
    rw [ih (data.drop 16) (by simp only [List.length_drop]; omega), List.take_append_drop]

/-- When `n` chunks are just enough for the data, every chunk has 1 to 16 bytes and every
chunk but the last has 16. -/
theorem chunkList_lengths (n : Nat) :
    ∀ data : List Nat, data.length ≤ 16 * n → 16 * n < data.length + 16 →
      (∀ c ∈ chunkList data n, 1 ≤ c.length ∧ c.length ≤ 16) ∧
      (∀ c ∈ (chunkList data n).dropLast, c.length = 16) := by
  induction n with
  | zero =>
    intro data _ _
    simp [chunkList]
  | succ n ih =>
    intro data h1 h2
    cases n with
    | zero =>
      have hlen : (List.take 16 data).length = data.length := by
        simp only [List.length_take]; omega
      constructor
      · intro c hc
        simp only [chunkList, List.mem_singleton] at hc
        subst hc
        rw [hlen]
        omega
      · intro c hc
        simp [chunkList] at hc
    | succ m =>
      have hlen : (List.take 16 data).length = 16 := by
        simp only [List.length_take]; omega
      obtain ⟨ihA, ihB⟩ := ih (data.drop 16) (by simp only [List.length_drop]; omega)
        (by simp only [List.length_drop]; omega)
      have hcons : chunkList data (m + 1 + 1) =
          List.take 16 data :: chunkList (data.drop 16) (m + 1) := rfl
      have hne : chunkList (data.drop 16) (m + 1) ≠ [] := by simp [chunkList]
      constructor
      · intro c hc
        rw [hcons, List.mem_cons] at hc
        rcases hc with hc | hc
        · subst hc; rw [hlen]; omega
        · exact ihA c hc
      · intro c hc
        rw [hcons, List.dropLast_cons_of_ne_nil hne, List.mem_cons] at hc
        rcases hc with hc | hc
        · subst hc; exact hlen
        · exact ihB c hc

/-- The function `hash` always returns: the buffer then starts with the 32-byte digest of
its first `numBytes % 256` bytes. -/
theorem hash_eq (L : CryptoLib) (bytes : List Nat) (numBytes : Nat) :
    hash L bytes numBytes =
      some (memcpyAt bytes 0 (L.blake2b (bytes.take (numBytes % 256)) 32) 32) := by
  have hsize : numBytes % 256 < 256 := Nat.mod_lt _ (by decide)
  unfold hash
  simp only []
  rw [hashLoop_eq bytes (numBytes % 256) 256 0 BLAKE2b_reset (by omega)]
  simp only [BLAKE2b_reset, List.nil_append, BLAKE2b_finalize, List.drop_zero, Nat.sub_zero]
  rw [chunkList_flatten _ _ (by simp only [List.length_take]; omega)]

/-! ## Lemmas on `setDHKey` -/

/-- Behind the guard `setDHKey` always returns, with the key slot replaced. -/
theorem setDHKey_of_found (L : CryptoLib) (db : NodeDB) (e : CryptoEngine) (nodeNum : Nat)
    (h : keyNotFound (db nodeNum) = false) :
    setDHKey L db e nodeNum =
      some { e with key :=
        { bytes :=
            memcpy (memcpyAt (L.dh2 (memcpy (db nodeNum).public_key 32) (memcpy e.private_key 32)) 0
              (L.blake2b ((L.dh2 (memcpy (db nodeNum).public_key 32)
                (memcpy e.private_key 32)).take 32) 32) 32) 32,
          length := 32 } } := by
  simp only [setDHKey, h, Bool.false_eq_true, if_false, hash_eq, setKey]

/-- Behind the guard and under the length contracts of the library, `setDHKey` replaces
the key slot by the derived key. -/
theorem setDHKey_of_found_derivedKey (L : CryptoLib) (db : NodeDB) (e : CryptoEngine)
    (nodeNum : Nat) (h : keyNotFound (db nodeNum) = false)
    (hdh : ∀ k f, (L.dh2 k f).length = 32) (hb : ∀ d, (L.blake2b d 32).length = 32) :
    setDHKey L db e nodeNum = some { e with key := derivedKey L db e.private_key nodeNum } := by
  simp only [setDHKey, h, Bool.false_eq_true, if_false, hash_32 L _ (hdh _ _) hb, setKey,
    derivedKey]
  rw [memcpy, List.take_of_length_le (le_of_eq (hb _))]

/-- The function `setDHKey` always returns. -/
theorem setDHKey_returns (L : CryptoLib) (db : NodeDB) (e : CryptoEngine) (nodeNum : Nat) :
    ∃ e1, setDHKey L db e nodeNum = some e1 := by
  cases h : keyNotFound (db nodeNum)
  · exact ⟨_, setDHKey_of_found L db e nodeNum h⟩
  · exact ⟨e, by simp [setDHKey, h]⟩

/-! ## Lemmas on the conversion to `float` -/

/-- Up to `2^24` the conversion of a `uint32_t` to `float` is exact. -/
theorem u32ToFloat_of_le (n : Nat) (h : n ≤ 2 ^ 24) : u32ToFloat n = n := by
  rcases Nat.lt_or_ge n (2 ^ 24) with hlt | hge
  · unfold u32ToFloat
    rw [if_pos hlt]
  · have : n = 2 ^ 24 := Nat.le_antisymm h hge
    subst this
    decide

/-- The first value that the conversion changes: `2^24 + 1` becomes `2^24`. -/
theorem u32ToFloat_edge : u32ToFloat 16777217 = 16777216 := by
  decide

/-! ## Lemmas on `allocReply` and `sendOurPosition` -/

theorem allocReply_ignored (env : Env) (w : World) (h : w.ignoreRequest = true) :
    allocReply env w = some (none, w) := by
  simp [allocReply, h]

theorem allocReply_asserts (env : Env) (w : World) (hi : w.ignoreRequest = false)
    (hp : (env.refreshLocalMeshNode w.node).has_position = false) :
    allocReply env w = none := by
  simp [allocReply, hi, hp]

theorem allocReply_builds (env : Env) (w : World) (hi : w.ignoreRequest = false)
    (hp : (env.refreshLocalMeshNode w.node).has_position = true) :
    allocReply env w =
      some (some { env.allocDataPacket w.allocated with
                   payload := populatePosition env (nextLocalPosition env w) w.rtcQuality },
            { w with node := env.refreshLocalMeshNode w.node,
                     localPosition := nextLocalPosition env w,
                     allocated := w.allocated + 1 }) := by
  simp [allocReply, hi, hp, allocDataProtobuf, nextLocalPosition]

theorem sendOurPosition_sends (env : Env) (w : World) (dest : Nat) (wantReplies : Bool)
    (channel : Nat) (hi : w.ignoreRequest = false)
    (hp : (env.refreshLocalMeshNode w.node).has_position = true) :
    sendOurPosition env w dest wantReplies channel =
      some { w with node := env.refreshLocalMeshNode w.node,
                    localPosition := nextLocalPosition env w,
                    allocated := w.allocated + 1,
                    prevPacketId := (env.allocDataPacket w.allocated).id,
                    calls := w.calls ++
                      sendCalls w.prevPacketId (outboundPacket env w dest wantReplies channel) } := by
  by_cases hprev : w.prevPacketId = 0
  · by_cases hr : env.config.role = env.Role_TRACKER <;> by_cases hc : channel > 0 <;>
      simp [sendOurPosition, hprev, allocReply_builds, hi, hp, hr, hc, sendCalls, outboundPacket,
        nextLocalPosition]
  · by_cases hr : env.config.role = env.Role_TRACKER <;> by_cases hc : channel > 0 <;>
      simp [sendOurPosition, hprev, allocReply_builds, hi, hp, hr, hc, sendCalls, outboundPacket,
        nextLocalPosition]

theorem sendOurPosition_ignored (env : Env) (w : World) (dest : Nat) (wantReplies : Bool)
    (channel : Nat) (hi : w.ignoreRequest = true) :
    sendOurPosition env w dest wantReplies channel =
      some { w with calls := w.calls ++
        (if w.prevPacketId != 0 then [ServiceCall.cancelSending w.prevPacketId] else []) } := by
  by_cases hprev : w.prevPacketId = 0
  · cases w
    simp only at hprev hi
    subst hprev hi
    simp [sendOurPosition, allocReply]
  · simp [sendOurPosition, hprev, allocReply_ignored, hi]

theorem sentPackets_append (a b : List ServiceCall) :
    sentPackets (a ++ b) = sentPackets a ++ sentPackets b := by
  simp [sentPackets]

theorem sentPackets_sendCalls (prev : Nat) (p : MeshPacket) :
    sentPackets (sendCalls prev p) = [p] := by
  by_cases h : prev = 0 <;> simp [sentPackets, sendCalls, h]

/-- The payload always carries the coordinates of `localPosition`, and its time is zero
below the device tier and the time of `localPosition` otherwise. -/
theorem populatePosition_base_fields (env : Env) (lp : Position) (q : Nat) :
    (populatePosition env lp q).latitude_i = lp.latitude_i ∧
    (populatePosition env lp q).longitude_i = lp.longitude_i ∧
    (populatePosition env lp q).time = if q < env.RTCQualityDevice then 0 else lp.time := by
  unfold populatePosition
  lift_lets
  intro pos_flags p0 p1 p2 p3 p4 p5 p6 p7 p8 p9 p10 p11
  have h3 : p3.latitude_i = lp.latitude_i ∧ p3.longitude_i = lp.longitude_i ∧
      p3.time = lp.time := ⟨rfl, rfl, rfl⟩
  clear_value p3
  have h4 : p4.latitude_i = lp.latitude_i ∧ p4.longitude_i = lp.longitude_i ∧
      p4.time = lp.time := by
    unfold p4; split_ifs <;> exact h3
  clear_value p4
  have h5 : p5.latitude_i = lp.latitude_i ∧ p5.longitude_i = lp.longitude_i ∧
      p5.time = lp.time := by
    unfold p5; split_ifs <;> first | exact h4 | exact h3
  clear_value p5
  have h6 : p6.latitude_i = lp.latitude_i ∧ p6.longitude_i = lp.longitude_i ∧
      p6.time = lp.time := by
    unfold p6; split_ifs <;> exact h5
  clear_value p6
  have h7 : p7.latitude_i = lp.latitude_i ∧ p7.longitude_i = lp.longitude_i ∧
      p7.time = lp.time := by
    unfold p7; split_ifs <;> exact h6
  clear_value p7
  have h8 : p8.latitude_i = lp.latitude_i ∧ p8.longitude_i = lp.longitude_i ∧
      p8.time = lp.time := by
    unfold p8; split_ifs <;> exact h7
  clear_value p8
  have h9 : p9.latitude_i = lp.latitude_i ∧ p9.longitude_i = lp.longitude_i ∧
      p9.time = lp.time := by
    unfold p9; split_ifs <;> exact h8
  clear_value p9
  have h10 : p10.latitude_i = lp.latitude_i ∧ p10.longitude_i = lp.longitude_i ∧
      p10.time = lp.time := by
    unfold p10; split_ifs <;> exact h9
  clear_value p10
  have h11 : p11.latitude_i = lp.latitude_i ∧ p11.longitude_i = lp.longitude_i ∧
      p11.time = lp.time := by
    unfold p11; split_ifs <;> exact h10
  clear_value p11
  by_cases hq : q < env.RTCQualityDevice
  · rw [if_pos hq, if_pos hq]
    exact ⟨h11.1, h11.2.1, rfl⟩
  · rw [if_neg hq, if_neg hq]
    exact h11

/-- The optional fields of the payload, each as a function of its own flag tests. -/
theorem populatePosition_fields (env : Env) (lp : Position) (q : Nat) :
    (populatePosition env lp q).altitude =
      (if flagSet env.config.position_flags env.flags.ALTITUDE &&
          flagSet env.config.position_flags env.flags.ALTITUDE_MSL then lp.altitude else 0) ∧
    (populatePosition env lp q).altitude_hae =
      (if flagSet env.config.position_flags env.flags.ALTITUDE &&
          !flagSet env.config.position_flags env.flags.ALTITUDE_MSL then lp.altitude_hae else 0) ∧
    (populatePosition env lp q).altitude_geoidal_separation =
      (if flagSet env.config.position_flags env.flags.ALTITUDE &&
          flagSet env.config.position_flags env.flags.GEOIDAL_SEPARATION then
        lp.altitude_geoidal_separation else 0) ∧
    (populatePosition env lp q).PDOP =
      (if flagSet env.config.position_flags env.flags.DOP &&
          !flagSet env.config.position_flags env.flags.HVDOP then lp.PDOP else 0) ∧
    (populatePosition env lp q).HDOP =
      (if flagSet env.config.position_flags env.flags.DOP &&
          flagSet env.config.position_flags env.flags.HVDOP then lp.HDOP else 0) ∧
    (populatePosition env lp q).VDOP =
      (if flagSet env.config.position_flags env.flags.DOP &&
          flagSet env.config.position_flags env.flags.HVDOP then lp.VDOP else 0) ∧
    (populatePosition env lp q).sats_in_view =
      (if flagSet env.config.position_flags env.flags.SATINVIEW then lp.sats_in_view else 0) ∧
    (populatePosition env lp q).timestamp =
      (if flagSet env.config.position_flags env.flags.TIMESTAMP then lp.timestamp else 0) ∧
    (populatePosition env lp q).seq_number =
      (if flagSet env.config.position_flags env.flags.SEQ_NO then lp.seq_number else 0) ∧
    (populatePosition env lp q).ground_track =
      (if flagSet env.config.position_flags env.flags.HEADING then lp.ground_track else 0) ∧
    (populatePosition env lp q).ground_speed =
      (if flagSet env.config.position_flags env.flags.SPEED then lp.ground_speed else 0) := by
  unfold populatePosition
  lift_lets
  intro pos_flags p0 p1 p2 p3 p4 p5 p6 p7 p8 p9 p10 p11
  have h4 : p4 = { p3 with
      altitude := if flagSet pos_flags env.flags.ALTITUDE_MSL then lp.altitude else p3.altitude,
      altitude_hae :=
        if flagSet pos_flags env.flags.ALTITUDE_MSL then p3.altitude_hae else lp.altitude_hae } := by
    unfold p4; split_ifs <;> rfl
  clear_value p4
  have h5 : p5 = { p3 with
      altitude := if flagSet pos_flags env.flags.ALTITUDE then p4.altitude else p3.altitude,
      altitude_hae :=
        if flagSet pos_flags env.flags.ALTITUDE then p4.altitude_hae else p3.altitude_hae,
      altitude_geoidal_separation :=
        if flagSet pos_flags env.flags.ALTITUDE then
          (if flagSet pos_flags env.flags.GEOIDAL_SEPARATION then lp.altitude_geoidal_separation
           else p3.altitude_geoidal_separation)
        else p3.altitude_geoidal_separation } := by
    unfold p5; rw [h4]; split_ifs <;> rfl
  clear_value p5
  have h6 : p6 = { p5 with
      HDOP := if flagSet pos_flags env.flags.DOP then
          (if flagSet pos_flags env.flags.HVDOP then lp.HDOP else p5.HDOP) else p5.HDOP,
      VDOP := if flagSet pos_flags env.flags.DOP then
          (if flagSet pos_flags env.flags.HVDOP then lp.VDOP else p5.VDOP) else p5.VDOP,
      PDOP := if flagSet pos_flags env.flags.DOP then
          (if flagSet pos_flags env.flags.HVDOP then p5.PDOP else lp.PDOP) else p5.PDOP } := by
    unfold p6; split_ifs <;> rfl
  clear_value p6
  have h7 : p7 = { p6 with
      sats_in_view :=
        if flagSet pos_flags env.flags.SATINVIEW then lp.sats_in_view else p6.sats_in_view } := by
    unfold p7; split_ifs <;> rfl
  clear_value p7
  have h8 : p8 = { p7 with
      timestamp :=
        if flagSet pos_flags env.flags.TIMESTAMP then lp.timestamp else p7.timestamp } := by
    unfold p8; split_ifs <;> rfl
  clear_value p8
  have h9 : p9 = { p8 with
      seq_number :=
        if flagSet pos_flags env.flags.SEQ_NO then lp.seq_number else p8.seq_number } := by
    unfold p9; split_ifs <;> rfl
  clear_value p9
  have h10 : p10 = { p9 with
      ground_track :=
        if flagSet pos_flags env.flags.HEADING then lp.ground_track else p9.ground_track } := by
    unfold p10; split_ifs <;> rfl
  clear_value p10
  have h11 : p11 = { p10 with
      ground_speed :=
        if flagSet pos_flags env.flags.SPEED then lp.ground_speed else p10.ground_speed } := by
    unfold p11; split_ifs <;> rfl
  clear_value p11
  by_cases hq : q < env.RTCQualityDevice
  · rw [if_pos hq, h11]; dsimp only
    rw [h10]; dsimp only
    rw [h9]; dsimp only
    rw [h8]; dsimp only
    rw [h7]; dsimp only
    rw [h6]; dsimp only
    rw [h5]; dsimp only
    rw [h4]; dsimp only
    clear h4 h5 h6 h7 h8 h9 h10 h11
    refine ⟨?_, ?_, ?_, ?_, ?_, ?_, ?_, ?_, ?_, ?_, ?_⟩ <;>
      (split_ifs <;> simp_all [Position_init_default, pos_flags, p0])
  · rw [if_neg hq, h11]; dsimp only
    rw [h10]; dsimp only
    rw [h9]; dsimp only
    rw [h8]; dsimp only
    rw [h7]; dsimp only
    rw [h6]; dsimp only
    rw [h5]; dsimp only
    rw [h4]; dsimp only
    clear h4 h5 h6 h7 h8 h9 h10 h11
    refine ⟨?_, ?_, ?_, ?_, ?_, ?_, ?_, ?_, ?_, ?_, ?_⟩ <;>
      (split_ifs <;> simp_all [Position_init_default, pos_flags, p0])

/-- Two position records with the same fields are equal. -/
theorem Position_eq_of_fields (a b : Position)
    (h1 : a.latitude_i = b.latitude_i) (h2 : a.longitude_i = b.longitude_i)
    (h3 : a.altitude = b.altitude) (h4 : a.time = b.time)
    (h5 : a.altitude_hae = b.altitude_hae)
    (h6 : a.altitude_geoidal_separation = b.altitude_geoidal_separation)
    (h7 : a.PDOP = b.PDOP) (h8 : a.HDOP = b.HDOP) (h9 : a.VDOP = b.VDOP)
    (h10 : a.sats_in_view = b.sats_in_view) (h11 : a.timestamp = b.timestamp)
    (h12 : a.seq_number = b.seq_number) (h13 : a.ground_track = b.ground_track)
    (h14 : a.ground_speed = b.ground_speed) : a = b := by
  cases a
  cases b
  simp only at h1 h2 h3 h4 h5 h6 h7 h8 h9 h10 h11 h12 h13 h14
  subst h1 h2 h3 h4 h5 h6 h7 h8 h9 h10 h11 h12 h13 h14
  rfl

/-- The record populated by `allocReply` is the field-disclosure filter of the
specification. -/
theorem populatePosition_eq_disclosedPosition (env : Env) (lp : Position) (q : Nat) :
    populatePosition env lp q =
      disclosedPosition env.flags env.config.position_flags (decide (q < env.RTCQualityDevice))
        lp := by
  obtain ⟨b1, b2, b3⟩ := populatePosition_base_fields env lp q
  obtain ⟨f1, f2, f3, f4, f5, f6, f7, f8, f9, f10, f11⟩ := populatePosition_fields env lp q
  apply Position_eq_of_fields
  · exact b1
  · exact b2
  · exact f1
  · rw [b3]; by_cases hq : q < env.RTCQualityDevice <;> simp [disclosedPosition, hq]
  · exact f2
  · exact f3
  · exact f4
  · exact f5
  · exact f6
  · exact f7
  · exact f8
  · exact f9
  · exact f10
  · exact f11

/-! ## The three paths that reach `sendOurPosition` -/

/-- The base path of `runOnce`: the world after a tick on which the base decision fires,
when `allocReply` builds a payload. -/
theorem runOnce_base (env : Env) (w : World) (hd : baseSendDecision env w)
    (hi : w.ignoreRequest = false)
    (hp : (env.refreshLocalMeshNode w.node).has_position = true) :
    runOnce env w =
      some (5000,
        { w with lastGpsSend := env.now,
                 lastGpsLatitude := w.node.position.latitude_i,
                 lastGpsLongitude := w.node.position.longitude_i,
                 currentGeneration := env.radioGeneration,
                 node := env.refreshLocalMeshNode w.node,
                 localPosition := nextLocalPosition env w,
                 allocated := w.allocated + 1,
                 prevPacketId := (env.allocDataPacket w.allocated).id,
                 calls := w.calls ++
                   sendCalls w.prevPacketId
                     (outboundPacket env w env.NODENUM_BROADCAST
                       (w.currentGeneration != env.radioGeneration) 0) }) := by
  obtain ⟨h1, h2, h3⟩ := hd
  simp only [runOnce, h1, h2, h3, if_true]
  rw [sendOurPosition_sends]
  · rfl
  · exact hi
  · exact hp

/-- The smart path of `runOnce`: the world after a tick on which the smart decision fires,
when `allocReply` builds a payload. The directory record is refreshed once by `runOnce`
and once more by `allocReply`. -/
theorem runOnce_smart (env : Env) (w : World) (hd : smartSendDecision env w)
    (hi : w.ignoreRequest = false)
    (hp : (env.refreshLocalMeshNode (env.refreshLocalMeshNode w.node)).has_position = true) :
    runOnce env w =
      some (5000,
        { w with lastGpsSend := env.now,
                 lastGpsLatitude :=
                   (env.refreshLocalMeshNode (env.refreshLocalMeshNode w.node)).position.latitude_i,
                 lastGpsLongitude :=
                   (env.refreshLocalMeshNode (env.refreshLocalMeshNode w.node)).position.longitude_i,
                 currentGeneration := env.radioGeneration,
                 node := env.refreshLocalMeshNode (env.refreshLocalMeshNode w.node),
                 localPosition :=
                   nextLocalPosition env { w with node := env.refreshLocalMeshNode w.node },
                 allocated := w.allocated + 1,
                 prevPacketId := (env.allocDataPacket w.allocated).id,
                 calls := w.calls ++
                   sendCalls w.prevPacketId
                     (outboundPacket env { w with node := env.refreshLocalMeshNode w.node }
                       env.NODENUM_BROADCAST (w.currentGeneration != env.radioGeneration) 0) }) := by
  obtain ⟨h1, h2, h3, h4, h5, h6⟩ := hd
  simp only [runOnce, h1, h2, h3, h4, h5, h6, if_true, if_false, and_self]
  rw [sendOurPosition_sends]
  · rfl
  · exact hi
  · exact hp

/-- The immediate path: the world after `handleNewPosition` when its decision fires and
`allocReply` builds a payload. -/
theorem handleNewPosition_sends (env : Env) (w : World) (hd : immediateSendDecision env w)
    (hi : w.ignoreRequest = false)
    (hp : (env.refreshLocalMeshNode (env.refreshLocalMeshNode w.node)).has_position = true) :
    handleNewPosition env w =
      some
        { w with lastGpsSend := env.now,
                 lastGpsLatitude :=
                   (env.refreshLocalMeshNode (env.refreshLocalMeshNode w.node)).position.latitude_i,
                 lastGpsLongitude :=
                   (env.refreshLocalMeshNode (env.refreshLocalMeshNode w.node)).position.longitude_i,
                 currentGeneration := env.radioGeneration,
                 node := env.refreshLocalMeshNode (env.refreshLocalMeshNode w.node),
                 localPosition :=
                   nextLocalPosition env { w with node := env.refreshLocalMeshNode w.node },
                 allocated := w.allocated + 1,
                 prevPacketId := (env.allocDataPacket w.allocated).id,
                 calls := w.calls ++
                   sendCalls w.prevPacketId
                     (outboundPacket env { w with node := env.refreshLocalMeshNode w.node }
                       env.NODENUM_BROADCAST (w.currentGeneration != env.radioGeneration) 0) } := by
  obtain ⟨h1, h2⟩ := hd
  simp only [handleNewPosition, h1, h2, if_true]
  rw [sendOurPosition_sends]
  · rfl
  · exact hi
  · exact hp

/-- Without a decision `runOnce` makes no service call and changes nothing but, possibly,
the directory record of the local node, which the smart path refreshes. -/
theorem runOnce_idle (env : Env) (w : World) (hb : ¬ baseSendDecision env w)
    (hs : ¬ smartSendDecision env w) :
    runOnce env w = some (5000, w) ∨
    runOnce env w = some (5000, { w with node := env.refreshLocalMeshNode w.node }) := by
  unfold baseSendDecision at hb
  unfold smartSendDecision at hs
  unfold runOnce
  by_cases c1 : w.lastGpsSend = 0 ∨
      u32sub env.now w.lastGpsSend ≥
        env.getConfiguredOrDefaultMs env.config.position_broadcast_secs
          env.default_broadcast_interval_secs
  · by_cases c2 : env.isTxAllowedChannelUtil false = true
    · by_cases c3 : env.hasValidPosition w.node = true
      · exact absurd ⟨c1, c2, c3⟩ hb
      · left; simp [c1, c2, c3]
    · left; simp [c1, c2]
  · by_cases c2 : env.config.position_broadcast_smart_enabled = true
    · by_cases c3 : env.isTxAllowedChannelUtil (env.config.role != env.Role_TRACKER) = true
      · by_cases c4 : env.hasValidPosition (env.refreshLocalMeshNode w.node) = true
        · have c5 : ¬ (|env.latLongToMeter w.lastGpsLatitude w.lastGpsLongitude
              (env.refreshLocalMeshNode w.node).position.latitude_i
              (env.refreshLocalMeshNode w.node).position.longitude_i| ≥
                (u32ToFloat (distanceTravelThreshold env) : ℚ) ∧
              u32sub env.now w.lastGpsSend ≥
                env.getConfiguredOrDefaultMs
                  env.config.broadcast_smart_minimum_interval_secs 30) :=
            fun h => hs ⟨c1, c2, c3, c4, h.1, h.2⟩
          right; simp only [c1, c2, c3, c4, c5, if_true, if_false]
        · right; simp only [c1, c2, c3, c4, if_true, if_false]; simp
      · left; simp only [c1, c2, c3, if_true, if_false]; simp
    · left; simp only [c1, c2, if_false]; simp

/-- With replies suppressed the smart decision of `runOnce` still updates the state, but
the only service call is the cancellation of the remembered packet. -/
theorem runOnce_smart_ignored (env : Env) (w : World) (hd : smartSendDecision env w)
    (hi : w.ignoreRequest = true) :
    runOnce env w =
      some (5000,
        { w with node := env.refreshLocalMeshNode w.node,
                 currentGeneration := env.radioGeneration,
                 lastGpsLatitude := (env.refreshLocalMeshNode w.node).position.latitude_i,
                 lastGpsLongitude := (env.refreshLocalMeshNode w.node).position.longitude_i,
                 lastGpsSend := env.now,
                 calls := w.calls ++
                   (if w.prevPacketId != 0 then [ServiceCall.cancelSending w.prevPacketId]
                    else []) }) := by
  obtain ⟨h1, h2, h3, h4, h5, h6⟩ := hd
  simp only [runOnce, h1, h2, h3, h4, h5, h6, if_true, if_false, and_self]
  rw [sendOurPosition_ignored]
  exact hi

/-- Without a decision `handleNewPosition` only refreshes the directory record. -/
theorem handleNewPosition_idle (env : Env) (w : World) (hd : ¬ immediateSendDecision env w) :
    handleNewPosition env w = some { w with node := env.refreshLocalMeshNode w.node } := by
  unfold immediateSendDecision at hd
  unfold handleNewPosition
  by_cases c1 : env.hasValidPosition (env.refreshLocalMeshNode w.node) = true
  · have c2 : ¬ (|env.latLongToMeter w.lastGpsLatitude w.lastGpsLongitude
        (env.refreshLocalMeshNode w.node).position.latitude_i
        (env.refreshLocalMeshNode w.node).position.longitude_i| ≥
          (u32ToFloat (distanceTravelThreshold env) : ℚ)) := fun h => hd ⟨c1, h⟩
    simp only [c1, c2, if_true, if_false]
  · simp only [c1, if_false]; simp

/-- With replies suppressed the decision of `handleNewPosition` still updates the state,
but the only service call is the cancellation of the remembered packet. -/
theorem handleNewPosition_ignored (env : Env) (w : World) (hd : immediateSendDecision env w)
    (hi : w.ignoreRequest = true) :
    handleNewPosition env w =
      some { w with node := env.refreshLocalMeshNode w.node,
                    currentGeneration := env.radioGeneration,
                    lastGpsLatitude := (env.refreshLocalMeshNode w.node).position.latitude_i,
                    lastGpsLongitude := (env.refreshLocalMeshNode w.node).position.longitude_i,
                    lastGpsSend := env.now,
                    calls := w.calls ++
                      (if w.prevPacketId != 0 then [ServiceCall.cancelSending w.prevPacketId]
                       else []) } := by
  obtain ⟨h1, h2⟩ := hd
  simp only [handleNewPosition, h1, h2, if_true]
  rw [sendOurPosition_ignored]
  exact hi

/-- When the assertion of `allocReply` fails under a decision, `handleNewPosition` does
not return. -/
theorem handleNewPosition_asserts (env : Env) (w : World) (hd : immediateSendDecision env w)
    (hi : w.ignoreRequest = false)
    (hp : (env.refreshLocalMeshNode (env.refreshLocalMeshNode w.node)).has_position = false) :
    handleNewPosition env w = none := by
  obtain ⟨h1, h2⟩ := hd
  simp only [handleNewPosition, h1, h2, if_true]
  have : ∀ w0 : World, w0.ignoreRequest = false →
      (env.refreshLocalMeshNode w0.node).has_position = false →
      sendOurPosition env w0 env.NODENUM_BROADCAST (w.currentGeneration != env.radioGeneration) 0
        = none := by
    intro w0 h0 hp0
    by_cases hprev : w0.prevPacketId = 0
    · simp [sendOurPosition, hprev, allocReply, h0, hp0]
    · simp [sendOurPosition, hprev, allocReply, h0, hp0]
  rw [this] <;> first | rfl | exact hi | exact hp

/-- The reply-suppression flag is not touched by `handleNewPosition`. -/
theorem handleNewPosition_ignoreRequest (env : Env) (w w1 : World)
    (h : handleNewPosition env w = some w1) : w1.ignoreRequest = w.ignoreRequest := by
  by_cases hd : immediateSendDecision env w
  · cases hi : w.ignoreRequest
    · cases hp : (env.refreshLocalMeshNode (env.refreshLocalMeshNode w.node)).has_position
      · rw [handleNewPosition_asserts env w hd hi hp] at h
        cases h
      · rw [handleNewPosition_sends env w hd hi hp] at h
        cases h
        exact hi
    · rw [handleNewPosition_ignored env w hd hi] at h
      cases h
      exact hi
  · rw [handleNewPosition_idle env w hd] at h
    cases h
    rfl

/-- With replies suppressed `handleNewPosition` always returns. -/
theorem handleNewPosition_returns_of_ignored (env : Env) (w : World)
    (hi : w.ignoreRequest = true) : ∃ w1, handleNewPosition env w = some w1 := by
  by_cases hd : immediateSendDecision env w
  · exact ⟨_, handleNewPosition_ignored env w hd hi⟩
  · exact ⟨_, handleNewPosition_idle env w hd⟩

/-- After `handleReceivedProtobuf` the reply-suppression flag tells whether the packet came
in on a channel that is not the primary one. -/
theorem handleReceivedProtobuf_ignoreRequest (env : Env) (w : World) (mp : MeshPacket)
    (p : Position) (r : Bool × World) (h : handleReceivedProtobuf env w mp p = some r) :
    r.2.ignoreRequest = decide (env.channelRole mp.channel ≠ env.Channel_Role_PRIMARY) := by
  unfold handleReceivedProtobuf at h
  lift_lets at h
  extract_lets secs w1 w2 w3 at h
  have h3 : w3.ignoreRequest =
      decide (env.channelRole mp.channel ≠ env.Channel_Role_PRIMARY) := by
    unfold w3
    by_cases hc : env.channelRole mp.channel = env.Channel_Role_PRIMARY
    · simp [hc]
    · simp [hc]
  clear_value w3
  by_cases hself : env.getNodeNum = env.getFrom mp
  · rw [if_pos hself] at h
    cases hn : handleNewPosition env w3 with
    | none => rw [hn] at h; cases h
    | some w4 =>
      rw [hn] at h
      cases h
      rw [← h3]
      exact handleNewPosition_ignoreRequest env w3 w4 hn
  · rw [if_neg hself] at h
    cases h
    exact h3

/-! ## Theorems -/

/-- C1. For a peer that passes the directory guard of `setDHKey` (its record has `num ≥ 1`
and the first byte of its public key is not zero), whatever the key slot held before,
`setDHKey` returns and leaves every member of the engine as it was except the key slot,
which then has length 32 and holds the 32-byte BLAKE2b digest of the Curve25519 output
`dh2(peerPublicKey, localPrivateKey)`. The two hypotheses on the library say that `dh2`
leaves 32 bytes in its buffer and that a 32-byte digest has 32 bytes. -/
theorem setDHKey_installs_digest_of_dh (L : CryptoLib) (db : NodeDB) (e : CryptoEngine)
    (nodeNum : Nat)
    (hdh : ∀ k f, (L.dh2 k f).length = 32)
    (hb : ∀ d, (L.blake2b d 32).length = 32)
    (hnum : 1 ≤ (db nodeNum).num)
    (hkey : firstByte (db nodeNum).public_key ≠ 0) :
    setDHKey L db e nodeNum =
      some { e with key :=
        { bytes := L.blake2b (L.dh2 (memcpy (db nodeNum).public_key 32)
            (memcpy e.private_key 32)) 32,
          length := 32 } } := by
  have hguard : keyNotFound (db nodeNum) = false := by
    simp [keyNotFound, hkey]; omega
  simp only [setDHKey, hguard, Bool.false_eq_true, if_false, hash_32 L _ (hdh _ _) hb, setKey]
  rw [memcpy, List.take_of_length_le (le_of_eq (hb _))]

/-- Witness of C1 on the sample library: node 5 is in the sample directory with public key
`03 03 ..`, the private key of the sample engine is `02 02 ..`. -/
theorem setDHKey_installs_digest_of_dh_witness :
    1 ≤ (sampleDB 5).num ∧ firstByte (sampleDB 5).public_key ≠ 0 ∧
    setDHKey sampleLib sampleDB sampleEngine 5 =
      some { sampleEngine with key :=
        { bytes := sampleLib.blake2b (sampleLib.dh2 (memcpy (sampleDB 5).public_key 32)
            (memcpy sampleEngine.private_key 32)) 32,
          length := 32 } } :=
  ⟨by decide, by decide,
    setDHKey_installs_digest_of_dh sampleLib sampleDB sampleEngine 5
      (by intro k f; simp [sampleLib]) (by intro d; simp [sampleLib]) (by decide) (by decide)⟩

/-- C2. For every 32-bit sender id `s`, every 64-bit packet number `n` and every engine
state (so every earlier nonce), the nonce after `initNonce(s, n)` is the 8 bytes of `n`,
least significant first, then the 4 bytes of `s`, least significant first, then 4 zero
bytes; it has 16 bytes. -/
theorem initNonce_layout (e : CryptoEngine) (s n : Nat) (hs : s < 2 ^ 32) (hn : n < 2 ^ 64) :
    (initNonce e s n).nonce = leBytes 8 n ++ leBytes 4 s ++ [0, 0, 0, 0] ∧
    (initNonce e s n).nonce.length = 16 := by
  have h := initNonce_nonce e s n
  rw [Nat.mod_eq_of_lt hs, Nat.mod_eq_of_lt hn] at h
  rw [h]
  simp [length_leBytes]

/-- Witness of C2: sender `0x11223344`, packet number `0x0102030405060708`, over a nonce
that held `ff ff ..` before. -/
theorem initNonce_layout_witness :
    (0x11223344 < 2 ^ 32 ∧ 0x0102030405060708 < 2 ^ 64) ∧
    (initNonce sampleEngine 0x11223344 0x0102030405060708).nonce =
      [8, 7, 6, 5, 4, 3, 2, 1, 0x44, 0x33, 0x22, 0x11, 0, 0, 0, 0] :=
  ⟨by decide,
    (initNonce_layout sampleEngine 0x11223344 0x0102030405060708 (by decide) (by decide)).1⟩

/-- C3. Nonce construction is injective: for 32-bit sender ids `s1`, `s2` and 64-bit packet
numbers `n1`, `n2` with `(s1, n1) ≠ (s2, n2)`, the nonce left by `initNonce(s1, n1)` differs
from the nonce left by `initNonce(s2, n2)`, whatever the two engines held before. -/
theorem initNonce_injective (e1 e2 : CryptoEngine) (s1 n1 s2 n2 : Nat)
    (hs1 : s1 < 2 ^ 32) (hn1 : n1 < 2 ^ 64) (hs2 : s2 < 2 ^ 32) (hn2 : n2 < 2 ^ 64)
    (hne : (s1, n1) ≠ (s2, n2)) :
    (initNonce e1 s1 n1).nonce ≠ (initNonce e2 s2 n2).nonce := by
  intro h
  rw [initNonce_nonce, initNonce_nonce, Nat.mod_eq_of_lt hs1, Nat.mod_eq_of_lt hn1,
    Nat.mod_eq_of_lt hs2, Nat.mod_eq_of_lt hn2] at h
  have hl : (leBytes 8 n1).length = (leBytes 8 n2).length := by
    rw [length_leBytes, length_leBytes]
  obtain ⟨hA, hB⟩ := List.append_inj h hl
  have hl4 : (leBytes 4 s1).length = (leBytes 4 s2).length := by
    rw [length_leBytes, length_leBytes]
  obtain ⟨hC, _⟩ := List.append_inj hB hl4
  have hn : n1 = n2 := leBytes_injective 8 n1 n2 (by simpa using hn1) (by simpa using hn2) hA
  have hs : s1 = s2 := leBytes_injective 4 s1 s2 (by simpa using hs1) (by simpa using hs2) hC
  exact hne (by rw [hn, hs])

/-- Witness of C3: the same packet number from two senders, over different earlier nonces. -/
theorem initNonce_injective_witness :
    (7, 1000) ≠ (8, 1000) ∧
    (initNonce sampleEngine 7 1000).nonce ≠
      (initNonce { sampleEngine with nonce := [] } 8 1000).nonce :=
  ⟨by decide,
    initNonce_injective sampleEngine { sampleEngine with nonce := [] } 7 1000 8 1000
      (by decide) (by decide) (by decide) (by decide) (by decide)⟩

/-- C4, the claim as stated fails. Node 6 is not in the sample directory and node 9 has the
all-zero public key. For both, `setDHKey` returns the engine it was given: the key
`aa aa ..` cached for an earlier peer is still the key in the slot, with length 32. The
function returns `void`, so the engine after the call is all the caller gets, and it is
the same outcome as a call that succeeds: for node 5, which has a key, a call on an
engine that already holds the key of node 5 also returns the engine it was given. -/
theorem setDHKey_not_found_keeps_stale_key :
    keyNotFound (sampleDB 6) = true ∧ keyNotFound (sampleDB 9) = true ∧
    (sampleDB 9).public_key = List.replicate 32 0 ∧
    setDHKey sampleLib sampleDB sampleEngine 6 = some sampleEngine ∧
    setDHKey sampleLib sampleDB sampleEngine 9 = some sampleEngine ∧
    sampleEngine.key = { bytes := List.replicate 32 170, length := 32 } ∧
    keyNotFound (sampleDB 5) = false ∧
    setDHKey sampleLib sampleDB sampleEngineFor5 5 = some sampleEngineFor5 := by
  decide

/-- C4, amended. For every peer that the directory does not know (its record has
`num < 1`) or whose recorded public key is the all-zero sentinel, `setDHKey` returns with
the engine exactly as it was, the cached key included, and hands nothing back to its
caller; `encryptCurve25519_Blake2b` and `decryptCurve25519_Blake2b` make the same test
themselves and return without invoking the cipher, whatever implementation of the virtual
`encrypt` / `decrypt` is installed, with the engine and the buffer unchanged. -/
theorem setDHKey_not_found_unchanged (L : CryptoLib) (db : NodeDB) (e : CryptoEngine)
    (cipher : Cipher) (nodeNum fromNode packetNum numBytes : Nat) (bytes : List Nat)
    (h : (db nodeNum).num < 1 ∨ (db nodeNum).public_key = List.replicate 32 0) :
    setDHKey L db e nodeNum = some e ∧
    encryptCurve25519_Blake2b_via cipher L db e nodeNum fromNode packetNum numBytes bytes =
      some (e, bytes) ∧
    decryptCurve25519_Blake2b_via cipher L db e nodeNum packetNum numBytes bytes =
      some (e, bytes) := by
  have hguard : keyNotFound (db nodeNum) = true := by
    simp only [keyNotFound, Bool.or_eq_true, decide_eq_true_eq, beq_iff_eq]
    rcases h with h | h
    · exact Or.inl h
    · right
      rw [h]
      rfl
  simp [setDHKey, encryptCurve25519_Blake2b_via, decryptCurve25519_Blake2b_via, hguard]

/-- Witness of C4 amended: node 9 of the sample directory has the all-zero public key; the
sample cipher, which would change the buffer, is not invoked. -/
theorem setDHKey_not_found_unchanged_witness :
    ((sampleDB 9).num < 1 ∨ (sampleDB 9).public_key = List.replicate 32 0) ∧
    (sampleCipher sampleEngine 1 77 3 [10, 20, 30]).2 ≠ [10, 20, 30] ∧
    setDHKey sampleLib sampleDB sampleEngine 9 = some sampleEngine ∧
    encryptCurve25519_Blake2b_via sampleCipher sampleLib sampleDB sampleEngine 9 1 77 3
      [10, 20, 30] = some (sampleEngine, [10, 20, 30]) ∧
    decryptCurve25519_Blake2b_via sampleCipher sampleLib sampleDB sampleEngine 9 77 3
      [10, 20, 30] = some (sampleEngine, [10, 20, 30]) :=
  ⟨by decide, by decide,
    setDHKey_not_found_unchanged sampleLib sampleDB sampleEngine sampleCipher 9 1 77 3
      [10, 20, 30] (by decide)⟩

/-- C5, the claim as stated fails. At utilization 10 % the relaxed gate allows
transmission and nothing was sent yet (`lastGpsSend = 0`), but on a node without a fix
`runOnce` returns with the world as it was: no packet, `lastGpsSend` still 0 and not the
tick time 100000. With a fix but with replies suppressed (`ignoreRequest`), the tick sets
`lastGpsSend` to 100000 and still hands no packet to the mesh service. -/
theorem runOnce_never_sent_without_fix :
    sampleWorldNoFix.lastGpsSend = 0 ∧ sampleWorldIgnoring.lastGpsSend = 0 ∧
    (sampleEnv 10).isTxAllowedChannelUtil false = true ∧ (sampleEnv 10).now = 100000 ∧
    runOnce (sampleEnv 10) sampleWorldNoFix = some (5000, sampleWorldNoFix) ∧
    sampleWorldNoFix.calls = [] ∧
    (runOnce (sampleEnv 10) sampleWorldIgnoring).map
      (fun r => (r.2.calls, r.2.lastGpsSend)) = some ([], 100000) := by
  decide

/-- C5, amended. In every state with `lastGpsSend = 0` in which the relaxed gate allows
transmission, the directory record of the local node holds a valid position, replies are
not suppressed (`ignoreRequest` clear) and the assertion of `allocReply` holds, one tick
`runOnce` returns 5000, hands exactly one packet to the mesh service, addressed to
`NODENUM_BROADCAST`, and leaves `lastGpsSend` equal to the tick time. -/
theorem runOnce_first_tick_sends (env : Env) (w : World)
    (h0 : w.lastGpsSend = 0)
    (hgate : env.isTxAllowedChannelUtil false = true)
    (hvalid : env.hasValidPosition w.node = true)
    (hi : w.ignoreRequest = false)
    (hp : (env.refreshLocalMeshNode w.node).has_position = true) :
    ∃ (p : MeshPacket) (w1 : World),
      runOnce env w = some (5000, w1) ∧
      sentPackets w1.calls = sentPackets w.calls ++ [p] ∧
      p.to_ = env.NODENUM_BROADCAST ∧
      w1.lastGpsSend = env.now := by
  refine ⟨outboundPacket env w env.NODENUM_BROADCAST (w.currentGeneration != env.radioGeneration) 0,
    _, runOnce_base env w ⟨Or.inl h0, hgate, hvalid⟩ hi hp, ?_, rfl, rfl⟩
  simp only [sentPackets_append, sentPackets_sendCalls]

/-- Witness of C5 amended: the sample world at utilization 10 %. -/
theorem runOnce_first_tick_sends_witness :
    sampleWorld.lastGpsSend = 0 ∧ (sampleEnv 10).isTxAllowedChannelUtil false = true ∧
    ∃ (p : MeshPacket) (w1 : World),
      runOnce (sampleEnv 10) sampleWorld = some (5000, w1) ∧
      sentPackets w1.calls = sentPackets sampleWorld.calls ++ [p] ∧
      p.to_ = (sampleEnv 10).NODENUM_BROADCAST ∧
      w1.lastGpsSend = (sampleEnv 10).now :=
  ⟨by decide, by decide,
    runOnce_first_tick_sends (sampleEnv 10) sampleWorld (by decide) (by decide) (by decide)
      (by decide) (by decide)⟩

/-- The smart decision fires on the sample world that moved by exactly the threshold. -/
theorem smartSendDecision_sampleWorldMoved : smartSendDecision (sampleEnv 10) sampleWorldMoved := by
  refine ⟨by decide, by decide, by decide, by decide, ?_, by decide⟩
  norm_num [sampleEnv, sampleWorldMoved, sampleWorld, distanceTravelThreshold, sampleConfig, u32ToFloat]

/-- The smart decision fires on the sample world at distance `2^24` under the configured
threshold `2^24 + 1`, which the comparison converts to the `float` `2^24`. -/
theorem smartSendDecision_sampleWorldFloatEdge :
    smartSendDecision (sampleEnvThreshold 16777217) sampleWorldFloatEdge := by
  have ht : u32ToFloat (distanceTravelThreshold (sampleEnvThreshold 16777217)) = 16777216 := by
    decide
  refine ⟨by decide, by decide, by decide, by decide, ?_, by decide⟩
  rw [ht]
  norm_num [sampleEnvThreshold, sampleEnv, sampleWorldFloatEdge, sampleWorld]

/-- C6, the claim as stated fails. In the sample world the base interval (900 s) has not
elapsed, smart broadcast is enabled, the signed distance from the last sent position is
exactly the threshold 100 and the elapsed time is exactly the minimum interval 30000 ms:
neither strictly exceeds its bound, and `runOnce` hands one packet to the mesh service.
With the configured threshold 16777217 and the distance 16777216, which is below the
threshold, `runOnce` hands one packet over as well: the comparison is made in `float`,
where the threshold is 16777216. -/
theorem runOnce_smart_sends_at_threshold :
    sampleWorldMoved.lastGpsSend ≠ 0 ∧
    u32sub (sampleEnv 10).now sampleWorldMoved.lastGpsSend <
      (sampleEnv 10).getConfiguredOrDefaultMs (sampleEnv 10).config.position_broadcast_secs
        (sampleEnv 10).default_broadcast_interval_secs ∧
    (sampleEnv 10).config.position_broadcast_smart_enabled = true ∧
    (runOnce (sampleEnv 10) sampleWorldMoved).map (fun r => (sentPackets r.2.calls).length) =
      some 1 ∧
    ¬ (|(sampleEnv 10).latLongToMeter 440 560 500 600| >
        (distanceTravelThreshold (sampleEnv 10) : ℚ)) ∧
    ¬ (u32sub (sampleEnv 10).now sampleWorldMoved.lastGpsSend >
        (sampleEnv 10).getConfiguredOrDefaultMs
          (sampleEnv 10).config.broadcast_smart_minimum_interval_secs 30) ∧
    distanceTravelThreshold (sampleEnvThreshold 16777217) = 16777217 ∧
    |(sampleEnvThreshold 16777217).latLongToMeter (-16776716) 600 500 600| = 16777216 ∧
    (runOnce (sampleEnvThreshold 16777217) sampleWorldFloatEdge).map
      (fun r => (sentPackets r.2.calls).length) = some 1 := by
  refine ⟨by decide, by decide, by decide, ?_, ?_, by decide, by decide, ?_, ?_⟩
  · rw [runOnce_smart (sampleEnv 10) sampleWorldMoved smartSendDecision_sampleWorldMoved
      (by decide) (by decide)]
    simp only [Option.map_some', sentPackets_append, sentPackets_sendCalls]
    rfl
  · norm_num [sampleEnv, distanceTravelThreshold, sampleConfig]
  · norm_num [sampleEnvThreshold, sampleEnv]
  · rw [runOnce_smart (sampleEnvThreshold 16777217) sampleWorldFloatEdge
      smartSendDecision_sampleWorldFloatEdge (by decide) (by decide)]
    simp only [Option.map_some', sentPackets_append, sentPackets_sendCalls]
    rfl

/-- C6, amended. On every tick `runOnce` where the base interval has not elapsed
(`lastGpsSend ≠ 0` and `now - lastGpsSend < intervalMs`) and smart broadcast is enabled, a
packet is handed to the mesh service only if all of these hold: the gate consulted on this
path (strict unless the role is TRACKER) allows transmission, the refreshed position is
valid, the distance travelled since the last sent position is at least the distance
threshold as the comparison sees it, converted to `float` (the threshold is the configured
minimum, or 100 when the configured value is 0; the conversion keeps every value up to
`2^24`), and the elapsed time since the last send is at least the minimum interval. -/
theorem runOnce_smart_send_only_if (env : Env) (w : World) (r : Int × World)
    (hsent : w.lastGpsSend ≠ 0)
    (hint : u32sub env.now w.lastGpsSend <
      env.getConfiguredOrDefaultMs env.config.position_broadcast_secs
        env.default_broadcast_interval_secs)
    (_hsmart : env.config.position_broadcast_smart_enabled = true)
    (hrun : runOnce env w = some r)
    (hsend : sentPackets r.2.calls ≠ sentPackets w.calls) :
    env.isTxAllowedChannelUtil (env.config.role != env.Role_TRACKER) = true ∧
    env.hasValidPosition (env.refreshLocalMeshNode w.node) = true ∧
    |env.latLongToMeter w.lastGpsLatitude w.lastGpsLongitude
        (env.refreshLocalMeshNode w.node).position.latitude_i
        (env.refreshLocalMeshNode w.node).position.longitude_i| ≥
      (u32ToFloat (if env.config.broadcast_smart_minimum_distance = 0 then 100
        else env.config.broadcast_smart_minimum_distance) : ℚ) ∧
    u32sub env.now w.lastGpsSend ≥
      env.getConfiguredOrDefaultMs env.config.broadcast_smart_minimum_interval_secs 30 ∧
    ((if env.config.broadcast_smart_minimum_distance = 0 then 100
        else env.config.broadcast_smart_minimum_distance) ≤ 2 ^ 24 →
      |env.latLongToMeter w.lastGpsLatitude w.lastGpsLongitude
          (env.refreshLocalMeshNode w.node).position.latitude_i
          (env.refreshLocalMeshNode w.node).position.longitude_i| ≥
        ((if env.config.broadcast_smart_minimum_distance = 0 then 100
          else env.config.broadcast_smart_minimum_distance : Nat) : ℚ)) := by
  have hb : ¬ baseSendDecision env w := by
    rintro ⟨h1, _, _⟩
    rcases h1 with h1 | h1
    · exact hsent h1
    · exact absurd h1 (not_le.mpr hint)
  by_cases hs : smartSendDecision env w
  · obtain ⟨_, _, h3, h4, h5, h6⟩ := hs
    have hthr : distanceTravelThreshold env =
        (if env.config.broadcast_smart_minimum_distance = 0 then 100
          else env.config.broadcast_smart_minimum_distance) := by
      unfold distanceTravelThreshold
      by_cases hz : env.config.broadcast_smart_minimum_distance = 0
      · simp [hz]
      · simp [hz, Nat.pos_of_ne_zero hz]
    rw [hthr] at h5
    refine ⟨h3, h4, h5, h6, ?_⟩
    intro hle
    rw [u32ToFloat_of_le _ hle] at h5
    exact h5
  · exfalso
    rcases runOnce_idle env w hb hs with h | h
    · rw [h] at hrun
      cases hrun
      exact hsend rfl
    · rw [h] at hrun
      cases hrun
      exact hsend rfl

/-- Witness of C6 amended: the sample world that moved by the threshold, at utilization
10 %. -/
theorem runOnce_smart_send_only_if_witness :
    (sampleWorldMoved.lastGpsSend ≠ 0 ∧
      (sampleEnv 10).config.position_broadcast_smart_enabled = true) ∧
    ((sampleEnv 10).isTxAllowedChannelUtil
        ((sampleEnv 10).config.role != (sampleEnv 10).Role_TRACKER) = true ∧
      (sampleEnv 10).hasValidPosition
        ((sampleEnv 10).refreshLocalMeshNode sampleWorldMoved.node) = true ∧
      |(sampleEnv 10).latLongToMeter sampleWorldMoved.lastGpsLatitude
          sampleWorldMoved.lastGpsLongitude
          ((sampleEnv 10).refreshLocalMeshNode sampleWorldMoved.node).position.latitude_i
          ((sampleEnv 10).refreshLocalMeshNode sampleWorldMoved.node).position.longitude_i| ≥
        (u32ToFloat (if (sampleEnv 10).config.broadcast_smart_minimum_distance = 0 then 100
          else (sampleEnv 10).config.broadcast_smart_minimum_distance) : ℚ) ∧
      u32sub (sampleEnv 10).now sampleWorldMoved.lastGpsSend ≥
        (sampleEnv 10).getConfiguredOrDefaultMs
          (sampleEnv 10).config.broadcast_smart_minimum_interval_secs 30) :=
  ⟨⟨by decide, by decide⟩,
    have h := runOnce_smart_send_only_if (sampleEnv 10) sampleWorldMoved _
      (by decide) (by decide) (by decide)
      (runOnce_smart (sampleEnv 10) sampleWorldMoved smartSendDecision_sampleWorldMoved
        (by decide) (by decide))
      (by simp only [sentPackets_append, sentPackets_sendCalls]; simp)
    ⟨h.1, h.2.1, h.2.2.1, h.2.2.2.1⟩⟩

/-- C8, the claim as stated fails. The global `localPosition` holds the fix `(111, 222)`
and the directory record of the local node holds `(500, 600)`. The first tick sends one
packet that carries `(111, 222)`, and remembers `(500, 600)` as the last sent position. -/
theorem runOnce_remembers_directory_position :
    (runOnce (sampleEnv 10) sampleWorldLocalFix).map
      (fun r => (r.2.lastGpsLatitude, r.2.lastGpsLongitude,
        (sentPackets r.2.calls).map (fun p => (p.payload.latitude_i, p.payload.longitude_i)))) =
      some (500, 600, [(111, 222)]) := by
  decide

/-- C8, amended. In every state with replies not suppressed in which `runOnce` (base or
smart path) or `handleNewPosition` fires a send decision and the assertion of `allocReply`
holds: `cancelSending(prevPacketId)` is called iff the remembered id is not zero, then
exactly one packet is handed to `sendToMesh`, with priority RELIABLE for the role TRACKER
and BACKGROUND otherwise; `prevPacketId` becomes the id of that packet, `lastGpsSend` the
time of the decision, and `lastGpsLatitude`/`lastGpsLongitude` the coordinates of the
directory record of the local node (read before the send on the base path, after it on the
other two), while the packet carries the coordinates of the global `localPosition`. -/
theorem send_decision_effects (env : Env) (w : World) (hi : w.ignoreRequest = false) :
    (baseSendDecision env w → (env.refreshLocalMeshNode w.node).has_position = true →
      ∃ (p : MeshPacket) (w1 : World), runOnce env w = some (5000, w1) ∧
        sendEffects env w p w1 ∧
        w1.lastGpsLatitude = w.node.position.latitude_i ∧
        w1.lastGpsLongitude = w.node.position.longitude_i) ∧
    (smartSendDecision env w →
      (env.refreshLocalMeshNode (env.refreshLocalMeshNode w.node)).has_position = true →
      ∃ (p : MeshPacket) (w1 : World), runOnce env w = some (5000, w1) ∧
        sendEffects env w p w1 ∧
        w1.lastGpsLatitude = w1.node.position.latitude_i ∧
        w1.lastGpsLongitude = w1.node.position.longitude_i) ∧
    (immediateSendDecision env w →
      (env.refreshLocalMeshNode (env.refreshLocalMeshNode w.node)).has_position = true →
      ∃ (p : MeshPacket) (w1 : World), handleNewPosition env w = some w1 ∧
        sendEffects env w p w1 ∧
        w1.lastGpsLatitude = w1.node.position.latitude_i ∧
        w1.lastGpsLongitude = w1.node.position.longitude_i) := by
  refine ⟨fun hd hp => ?_, fun hd hp => ?_, fun hd hp => ?_⟩
  · refine ⟨outboundPacket env w env.NODENUM_BROADCAST
      (w.currentGeneration != env.radioGeneration) 0, _, runOnce_base env w hd hi hp, ?_, rfl, rfl⟩
    refine ⟨?_, rfl, rfl, rfl, ?_, ?_⟩
    · simp only [sendCalls, List.append_assoc]
    · exact (populatePosition_base_fields env _ _).1
    · exact (populatePosition_base_fields env _ _).2.1
  · refine ⟨outboundPacket env { w with node := env.refreshLocalMeshNode w.node }
      env.NODENUM_BROADCAST (w.currentGeneration != env.radioGeneration) 0, _,
      runOnce_smart env w hd hi hp, ?_, rfl, rfl⟩
    refine ⟨?_, rfl, rfl, rfl, ?_, ?_⟩
    · simp only [sendCalls, List.append_assoc]
    · exact (populatePosition_base_fields env _ _).1
    · exact (populatePosition_base_fields env _ _).2.1
  · refine ⟨outboundPacket env { w with node := env.refreshLocalMeshNode w.node }
      env.NODENUM_BROADCAST (w.currentGeneration != env.radioGeneration) 0, _,
      handleNewPosition_sends env w hd hi hp, ?_, rfl, rfl⟩
    refine ⟨?_, rfl, rfl, rfl, ?_, ?_⟩
    · simp only [sendCalls, List.append_assoc]
    · exact (populatePosition_base_fields env _ _).1
    · exact (populatePosition_base_fields env _ _).2.1

/-- Witness of C8 amended: the smart path on the sample world that remembers packet 77. -/
theorem send_decision_effects_witness :
    (sampleWorldMoved.ignoreRequest = false ∧ sampleWorldMoved.prevPacketId = 77) ∧
    ∃ (p : MeshPacket) (w1 : World), runOnce (sampleEnv 10) sampleWorldMoved = some (5000, w1) ∧
      sendEffects (sampleEnv 10) sampleWorldMoved p w1 ∧
      w1.lastGpsLatitude = w1.node.position.latitude_i ∧
      w1.lastGpsLongitude = w1.node.position.longitude_i :=
  ⟨by decide,
    (send_decision_effects (sampleEnv 10) sampleWorldMoved (by decide)).2.1
      smartSendDecision_sampleWorldMoved (by decide)⟩

/-- C10. After `handleReceivedProtobuf` has processed a position packet received on
channel `mp.channel`, `allocReply` returns `nullptr` if the role of that channel is not
PRIMARY, and returns a reply packet if the role is PRIMARY and the local node has a
position (the assertion of `allocReply` holds). `handleReceivedProtobuf` itself returns
whenever the channel is not the primary one or the packet comes from another node. -/
theorem reply_only_on_primary_channel (env : Env) (w : World) (mp : MeshPacket)
    (p : Position) :
    (∀ r : Bool × World, handleReceivedProtobuf env w mp p = some r →
      (env.channelRole mp.channel ≠ env.Channel_Role_PRIMARY →
        allocReply env r.2 = some (none, r.2)) ∧
      (env.channelRole mp.channel = env.Channel_Role_PRIMARY →
        (env.refreshLocalMeshNode r.2.node).has_position = true →
        ∃ (pkt : MeshPacket) (w1 : World), allocReply env r.2 = some (some pkt, w1))) ∧
    (env.channelRole mp.channel ≠ env.Channel_Role_PRIMARY ∨ env.getNodeNum ≠ env.getFrom mp →
      ∃ r : Bool × World, handleReceivedProtobuf env w mp p = some r) := by
  constructor
  · intro r hr
    have hflag := handleReceivedProtobuf_ignoreRequest env w mp p r hr
    constructor
    · intro hc
      exact allocReply_ignored env r.2 (by rw [hflag]; simpa using hc)
    · intro hc hp
      exact ⟨_, _, allocReply_builds env r.2 (by rw [hflag]; simpa using hc) hp⟩
  · intro h
    unfold handleReceivedProtobuf
    lift_lets
    intro secs w1 w2 w3
    by_cases hself : env.getNodeNum = env.getFrom mp
    · rw [if_pos hself]
      have hc : env.channelRole mp.channel ≠ env.Channel_Role_PRIMARY := by
        rcases h with h | h
        · exact h
        · exact absurd hself h
      have h3 : w3.ignoreRequest = true := by
        unfold w3
        simp [hc]
      obtain ⟨w4, h4⟩ := handleNewPosition_returns_of_ignored env w3 h3
      exact ⟨(false, w4), by rw [h4]⟩
    · rw [if_neg hself]
      exact ⟨_, rfl⟩

/-- Witness of C10: a packet from node 7 on the secondary channel 1 leaves `allocReply`
without a reply; the same packet on the primary channel 0 leaves it with one. -/
theorem reply_only_on_primary_channel_witness :
    ((sampleEnv 10).channelRole 1 ≠ (sampleEnv 10).Channel_Role_PRIMARY ∧
      (sampleEnv 10).channelRole 0 = (sampleEnv 10).Channel_Role_PRIMARY) ∧
    (∃ r : Bool × World,
      handleReceivedProtobuf (sampleEnv 10) sampleWorld (samplePacket 1) Position_init_default
        = some r ∧ allocReply (sampleEnv 10) r.2 = some (none, r.2)) ∧
    (∃ (r : Bool × World) (pkt : MeshPacket) (w1 : World),
      handleReceivedProtobuf (sampleEnv 10) sampleWorld (samplePacket 0) Position_init_default
        = some r ∧ allocReply (sampleEnv 10) r.2 = some (some pkt, w1)) := by
  refine ⟨by decide, ?_, ?_⟩
  · obtain ⟨r, hr⟩ :=
      (reply_only_on_primary_channel (sampleEnv 10) sampleWorld (samplePacket 1)
        Position_init_default).2 (Or.inl (by decide))
    exact ⟨r, hr,
      ((reply_only_on_primary_channel (sampleEnv 10) sampleWorld (samplePacket 1)
        Position_init_default).1 r hr).1 (by decide)⟩
  · obtain ⟨r, hr⟩ :=
      (reply_only_on_primary_channel (sampleEnv 10) sampleWorld (samplePacket 0)
        Position_init_default).2 (Or.inr (by decide))
    have hr0 : handleReceivedProtobuf (sampleEnv 10) sampleWorld (samplePacket 0)
        Position_init_default = some (false, sampleWorld) := by decide
    rw [hr0] at hr
    cases hr
    obtain ⟨pkt, w1, h1⟩ :=
      ((reply_only_on_primary_channel (sampleEnv 10) sampleWorld (samplePacket 0)
        Position_init_default).1 _ hr0).2 (by decide) (by decide)
    exact ⟨_, pkt, w1, hr0, h1⟩

/-- C13, the claim as stated fails. The global `localPosition` has both coordinates zero
and sequence number 8; `allocReply` builds a payload, replaces `localPosition` by the
directory position, whose sequence number is 0, and leaves the counter at 1, not at 9. -/
theorem allocReply_restarts_seq_number :
    sampleWorldSeq.localPosition.seq_number = 8 ∧
    (allocReply (sampleEnv 10) sampleWorldSeq).map
      (fun r => (r.1.isSome, r.2.localPosition.seq_number)) = some (true, 1) := by
  decide

/-- C13, amended. Every call of `allocReply` that builds a payload (replies not
suppressed, assertion holds) leaves `localPosition.seq_number` one greater (mod 2^32) than
the sequence number of the local position it populates from: the value before the call
when `localPosition` has a non-zero coordinate, the value in the position converted from
the directory record when both coordinates are zero. This holds for every flag bit mask,
and when the SEQ_NO flag is set the payload carries the incremented value. -/
theorem allocReply_increments_seq_number (env : Env) (w : World)
    (hi : w.ignoreRequest = false)
    (hp : (env.refreshLocalMeshNode w.node).has_position = true) :
    ∃ (pkt : MeshPacket) (w1 : World), allocReply env w = some (some pkt, w1) ∧
      w1.localPosition.seq_number =
        ((if w.localPosition.latitude_i = 0 ∧ w.localPosition.longitude_i = 0 then
            (env.ConvertToPosition (env.refreshLocalMeshNode w.node).position).seq_number
          else w.localPosition.seq_number) + 1) % 2 ^ 32 ∧
      (flagSet env.config.position_flags env.flags.SEQ_NO = true →
        pkt.payload.seq_number = w1.localPosition.seq_number) := by
  refine ⟨_, _, allocReply_builds env w hi hp, ?_, ?_⟩
  · show (nextLocalPosition env w).seq_number = _
    unfold nextLocalPosition
    by_cases hz : w.localPosition.latitude_i = 0 ∧ w.localPosition.longitude_i = 0
    · simp only [hz, and_self, if_true]
    · simp only [hz, if_false]
  · intro hflag
    show (populatePosition env (nextLocalPosition env w) w.rtcQuality).seq_number =
      (nextLocalPosition env w).seq_number
    rw [populatePosition_eq_disclosedPosition]
    simp only [disclosedPosition, hflag, if_true]

/-- Witness of C13 amended: the local position has coordinates and sequence number 8; the
call leaves the counter at 9 and, under SEQ_NO, the payload carries 9. -/
theorem allocReply_increments_seq_number_witness :
    (sampleWorldAllFields.localPosition.seq_number = 8 ∧
      flagSet (sampleEnvFlags 105).config.position_flags (sampleEnvFlags 105).flags.SEQ_NO
        = true) ∧
    ∃ (pkt : MeshPacket) (w1 : World),
      allocReply (sampleEnvFlags 105) sampleWorldAllFields = some (some pkt, w1) ∧
      w1.localPosition.seq_number = 9 ∧ pkt.payload.seq_number = 9 := by
  refine ⟨by decide, ?_⟩
  obtain ⟨pkt, w1, h1, h2, h3⟩ :=
    allocReply_increments_seq_number (sampleEnvFlags 105) sampleWorldAllFields (by decide)
      (by decide)
  have h4 : w1.localPosition.seq_number = 9 := h2.trans (by decide)
  exact ⟨pkt, w1, h1, h4, (h3 (by decide)).trans h4⟩

/-- C14. For every buffer that holds `numBytes` bytes, `numBytes` in 0..255, the loop of
`hash` terminates within its fuel and feeds the streaming digest exactly the first
`numBytes` bytes in order, cut into consecutive chunks of 16 bytes with a final chunk of 1
to 16 bytes (no chunk when `numBytes` is 0); `hash` returns, bytes `0..32` of the buffer
then hold the one-shot 32-byte digest of the first `numBytes` bytes and every byte from
index 32 on is unchanged. -/
theorem hash_feeds_prefix_in_chunks (L : CryptoLib) (bytes : List Nat) (numBytes : Nat)
    (hn : numBytes ≤ 255) (hbuf : numBytes ≤ bytes.length)
    (hb : ∀ d, (L.blake2b d 32).length = 32) :
    ∃ (chunks : BLAKE2bState) (out : List Nat),
      hashLoop bytes (numBytes % 256) 16 256 0 BLAKE2b_reset = some chunks ∧
      chunks = chunkList (bytes.take numBytes) ((numBytes + 15) / 16) ∧
      chunks.flatten = bytes.take numBytes ∧
      (∀ c ∈ chunks, 1 ≤ c.length ∧ c.length ≤ 16) ∧
      (∀ c ∈ chunks.dropLast, c.length = 16) ∧
      (numBytes = 0 → chunks = []) ∧
      hash L bytes numBytes = some out ∧
      out.take 32 = BLAKE2b_finalize L chunks 32 ∧
      out.take 32 = L.blake2b (bytes.take numBytes) 32 ∧
      out.drop 32 = bytes.drop 32 := by
  have hmod : numBytes % 256 = numBytes := Nat.mod_eq_of_lt (by omega)
  have hlen : (bytes.take numBytes).length = numBytes := by
    simp only [List.length_take]; omega
  have hflat := chunkList_flatten ((numBytes + 15) / 16) (bytes.take numBytes)
    (by rw [hlen]; omega)
  obtain ⟨hA, hB⟩ := chunkList_lengths ((numBytes + 15) / 16) (bytes.take numBytes)
    (by rw [hlen]; omega) (by rw [hlen]; omega)
  have htake : (memcpyAt bytes 0 (L.blake2b (bytes.take numBytes) 32) 32).take 32 =
      L.blake2b (bytes.take numBytes) 32 := by
    simp only [memcpyAt, List.take_zero, List.nil_append, Nat.zero_add,
      List.take_of_length_le (le_of_eq (hb _))]
    rw [List.take_append_of_le_length (le_of_eq (hb _).symm),
      List.take_of_length_le (le_of_eq (hb _))]
  refine ⟨chunkList (bytes.take numBytes) ((numBytes + 15) / 16),
    memcpyAt bytes 0 (L.blake2b (bytes.take numBytes) 32) 32, ?_, rfl, hflat, hA, hB, ?_, ?_, ?_,
    htake, ?_⟩
  · rw [hmod, hashLoop_eq bytes numBytes 256 0 BLAKE2b_reset (by omega)]
    simp only [BLAKE2b_reset, List.nil_append, List.drop_zero, Nat.sub_zero]
  · intro h0
    subst h0
    rfl
  · rw [hash_eq, hmod]
  · rw [htake, BLAKE2b_finalize, hflat]
  · simp only [memcpyAt, List.take_zero, List.nil_append, Nat.zero_add,
      List.take_of_length_le (le_of_eq (hb _))]
    rw [List.drop_append_of_le_length (le_of_eq (hb _).symm),
      List.drop_of_length_le (le_of_eq (hb _)), List.nil_append]

/-- Witness of C14: 35 bytes of a 40-byte buffer are fed as chunks of 16, 16 and 3 bytes,
and bytes 32 to 39 of the buffer are kept. -/
theorem hash_feeds_prefix_in_chunks_witness :
    (35 ≤ 255 ∧ 35 ≤ (List.range 40).length) ∧
    hashLoop (List.range 40) (35 % 256) 16 256 0 BLAKE2b_reset =
      some [List.range 16, [16, 17, 18, 19, 20, 21, 22, 23, 24, 25, 26, 27, 28, 29, 30, 31],
        [32, 33, 34]] ∧
    ∃ out, hash sampleLib (List.range 40) 35 = some out ∧
      out.take 32 = sampleLib.blake2b (List.range 35) 32 ∧
      out.drop 32 = [32, 33, 34, 35, 36, 37, 38, 39] := by
  obtain ⟨chunks, out, h1, h2, _, _, _, _, h7, _, h9, h10⟩ :=
    hash_feeds_prefix_in_chunks sampleLib (List.range 40) 35 (by decide) (by decide)
      (by intro d; simp [sampleLib])
  refine ⟨by decide, ?_, out, h7, ?_, ?_⟩
  · rw [h1, h2]
    decide
  · rw [h9]
    decide
  · rw [h10]
    decide

/-- C15. For every buffer and every `numBytes`, in particular every one greater than 255,
`hash` works on the 8-bit copy of the length: `hash(bytes, numBytes)` is
`hash(bytes, numBytes mod 256)`, the digest it writes is the digest of the first
`numBytes mod 256` bytes of the buffer, and the chunks fed to the digest are the same for
any two buffers that agree on bytes `0..255`, so no byte at index 255 or beyond reaches
the digest. -/
theorem hash_truncates_length (L : CryptoLib) (bytes : List Nat) (numBytes : Nat) :
    hash L bytes numBytes = hash L bytes (numBytes % 256) ∧
    hash L bytes numBytes =
      some (memcpyAt bytes 0 (L.blake2b (bytes.take (numBytes % 256)) 32) 32) ∧
    (∀ other : List Nat, other.take 255 = bytes.take 255 →
      hashLoop other (numBytes % 256) 16 256 0 BLAKE2b_reset =
        hashLoop bytes (numBytes % 256) 16 256 0 BLAKE2b_reset) := by
  have hsize : numBytes % 256 < 256 := Nat.mod_lt _ (by decide)
  refine ⟨?_, hash_eq L bytes numBytes, ?_⟩
  · rw [hash_eq, hash_eq, Nat.mod_mod]
  · intro other hsame
    have hpre : ∀ l : List Nat, l.take (numBytes % 256) = (l.take 255).take (numBytes % 256) := by
      intro l
      rw [List.take_take, Nat.min_eq_left (by omega)]
    rw [hashLoop_eq other _ 256 0 _ (by omega), hashLoop_eq bytes _ 256 0 _ (by omega),
      hpre other, hpre bytes, hsame]

/-- DH symmetry behind the guard: two nodes hold the private keys `privA` and `privB`,
each directory holds the other node with its public key (`pubB` on the first node, `pubA`
on the second) and both records pass the guard. If the Curve25519 primitive of the library
is commutative on these keys, `dh2(pubB, privA) = dh2(pubA, privB)`, then `setDHKey`
returns on both nodes and installs the same key. -/
theorem setDHKey_symmetric (L : CryptoLib) (dbA dbB : NodeDB) (eA eB : CryptoEngine)
    (nodeA nodeB : Nat)
    (hB : keyNotFound (dbA nodeB) = false) (hA : keyNotFound (dbB nodeA) = false)
    (hcomm : L.dh2 (memcpy (dbA nodeB).public_key 32) (memcpy eA.private_key 32) =
      L.dh2 (memcpy (dbB nodeA).public_key 32) (memcpy eB.private_key 32)) :
    ∃ (eA1 eB1 : CryptoEngine),
      setDHKey L dbA eA nodeB = some eA1 ∧ setDHKey L dbB eB nodeA = some eB1 ∧
      eA1.key = eB1.key := by
  refine ⟨_, _, setDHKey_of_found L dbA eA nodeB hB, setDHKey_of_found L dbB eB nodeA hA, ?_⟩
  simp only [hcomm]

/-- DH symmetry on the sample library, whose public key is `3 * private` and whose
`dh2` multiplies bytewise: node 1 has private key `02 ..` and public key `06 ..`, node 2
has private key `05 ..` and public key `0f ..`; both install the digest of `1e ..`. -/
theorem setDHKey_symmetric_witness :
    ((sampleEngineWith (List.replicate 32 2)).public_key = List.replicate 32 6 ∧
      (sampleEngineWith (List.replicate 32 5)).public_key = List.replicate 32 15) ∧
    ∃ (eA1 eB1 : CryptoEngine),
      setDHKey sampleLib (sampleDBWith 2 (List.replicate 32 15))
        (sampleEngineWith (List.replicate 32 2)) 2 = some eA1 ∧
      setDHKey sampleLib (sampleDBWith 1 (List.replicate 32 6))
        (sampleEngineWith (List.replicate 32 5)) 1 = some eB1 ∧
      eA1.key = eB1.key :=
  ⟨by decide,
    setDHKey_symmetric sampleLib (sampleDBWith 2 (List.replicate 32 15))
      (sampleDBWith 1 (List.replicate 32 6)) (sampleEngineWith (List.replicate 32 2))
      (sampleEngineWith (List.replicate 32 5)) 1 2 (by decide) (by decide) (by decide)⟩

/-- C12, the code at the failing input. Radio generation 3, remembered generation 0. A
position packet arrives on the secondary channel 1, which suppresses replies; the next
tick fires its send decision, sets the remembered generation to 3 and transmits nothing.
A packet on the primary channel 0 lifts the suppression; the tick after the next interval
transmits the first broadcast since the generations differed, and its `want_response` is
clear. The four components are: the remembered generation before the first tick, after
it, the packets sent by the first tick, and `want_response` of the packets sent by the
second tick. -/
theorem generation_advanced_without_request :
    (sampleEnv 10).radioGeneration = 3 ∧
    (handleReceivedProtobuf (sampleEnv 10) sampleWorld (samplePacket 1)
        Position_init_default).bind (fun r1 =>
      (runOnce (sampleEnv 10) r1.2).bind (fun r2 =>
        (handleReceivedProtobuf (sampleEnv 10) r2.2 (samplePacket 0)
            Position_init_default).bind (fun r3 =>
          (runOnce { sampleEnv 10 with now := 1100000 } r3.2).map (fun r4 =>
            (r1.2.currentGeneration, r2.2.currentGeneration, sentPackets r2.2.calls,
              (sentPackets r4.2.calls).map (fun p => p.want_response)))))) =
      some (0, 3, [], [false]) := by
  decide

/-- The smart decision fires on the sample world that moved by 150 with replies
suppressed. -/
theorem smartSendDecision_sampleWorldMovedIgnoring :
    smartSendDecision (sampleEnv 10) sampleWorldMovedIgnoring := by
  refine ⟨by decide, by decide, by decide, by decide, ?_, by decide⟩
  norm_num [sampleEnv, sampleWorldMovedIgnoring, sampleWorld, distanceTravelThreshold,
    sampleConfig, u32ToFloat]

/-- C17, the code at the failing input. The base interval has not elapsed, smart
broadcast is enabled, the strict gate allows transmission (utilization 10 %), the position
is valid, the distance 150 is above the threshold 100 and the elapsed 30000 ms reach the
minimum interval, but replies are suppressed: `runOnce` cancels the remembered packet 77,
hands no packet to the mesh service, and records the fix `(500, 600)` and the tick time as
the last send. -/
theorem runOnce_smart_suppressed_send :
    smartSendDecision (sampleEnv 10) sampleWorldMovedIgnoring ∧
    |(sampleEnv 10).latLongToMeter 450 500 500 600| = 150 ∧
    (runOnce (sampleEnv 10) sampleWorldMovedIgnoring).map
      (fun r => (r.2.calls, sentPackets r.2.calls, r.2.lastGpsLatitude, r.2.lastGpsLongitude,
        r.2.lastGpsSend)) =
      some ([ServiceCall.cancelSending 77], [], 500, 600, 100000) := by
  refine ⟨smartSendDecision_sampleWorldMovedIgnoring, ?_, ?_⟩
  · norm_num [sampleEnv]
  · rw [runOnce_smart_ignored (sampleEnv 10) sampleWorldMovedIgnoring
      smartSendDecision_sampleWorldMovedIgnoring (by decide)]
    decide

/-- C18, the claim as stated fails. The base interval (900 s) has not elapsed, the
configured threshold is 16777217 and the distance travelled is 16777216, below the
threshold; `runOnce` hands one packet to the mesh service and sets `lastGpsSend` to the
tick time, because the comparison is made in `float`, where the threshold is 16777216. -/
theorem runOnce_sends_below_threshold :
    sampleWorldFloatEdge.lastGpsSend = 70000 ∧
    u32sub (sampleEnvThreshold 16777217).now sampleWorldFloatEdge.lastGpsSend <
      (sampleEnvThreshold 16777217).getConfiguredOrDefaultMs
        (sampleEnvThreshold 16777217).config.position_broadcast_secs
        (sampleEnvThreshold 16777217).default_broadcast_interval_secs ∧
    |(sampleEnvThreshold 16777217).latLongToMeter (-16776716) 600 500 600| <
      (distanceTravelThreshold (sampleEnvThreshold 16777217) : ℚ) ∧
    (runOnce (sampleEnvThreshold 16777217) sampleWorldFloatEdge).map
      (fun r => ((sentPackets r.2.calls).length, r.2.lastGpsSend)) = some (1, 100000) := by
  refine ⟨by decide, by decide, ?_, ?_⟩
  · have ht : distanceTravelThreshold (sampleEnvThreshold 16777217) = 16777217 := by decide
    rw [ht]
    norm_num [sampleEnvThreshold, sampleEnv]
  · rw [runOnce_smart (sampleEnvThreshold 16777217) sampleWorldFloatEdge
      smartSendDecision_sampleWorldFloatEdge (by decide) (by decide)]
    simp only [Option.map_some', sentPackets_append, sentPackets_sendCalls]
    rfl

/-- C18, amended. On a tick `runOnce` where the base interval has not elapsed
(`lastGpsSend ≠ 0` and `now - lastGpsSend < intervalMs`) and the distance travelled since
the last sent position is below the distance threshold as the comparison sees it,
converted to `float`, whatever the utilization gate, the smart flag and the elapsed time,
`runOnce` returns 5000, makes no service call, and leaves `lastGpsSend`,
`lastGpsLatitude`, `lastGpsLongitude`, `prevPacketId`, `currentGeneration` and
`ignoreRequest` unchanged. The conversion keeps every threshold up to `2^24`. -/
theorem runOnce_below_threshold_unchanged (env : Env) (w : World)
    (hsent : w.lastGpsSend ≠ 0)
    (hint : u32sub env.now w.lastGpsSend <
      env.getConfiguredOrDefaultMs env.config.position_broadcast_secs
        env.default_broadcast_interval_secs)
    (hdist : |env.latLongToMeter w.lastGpsLatitude w.lastGpsLongitude
        (env.refreshLocalMeshNode w.node).position.latitude_i
        (env.refreshLocalMeshNode w.node).position.longitude_i| <
      (u32ToFloat (distanceTravelThreshold env) : ℚ)) :
    (∃ w1 : World, runOnce env w = some (5000, w1) ∧
      w1.calls = w.calls ∧
      w1.lastGpsSend = w.lastGpsSend ∧
      w1.lastGpsLatitude = w.lastGpsLatitude ∧
      w1.lastGpsLongitude = w.lastGpsLongitude ∧
      w1.prevPacketId = w.prevPacketId ∧
      w1.currentGeneration = w.currentGeneration ∧
      w1.ignoreRequest = w.ignoreRequest) ∧
    (distanceTravelThreshold env ≤ 2 ^ 24 →
      u32ToFloat (distanceTravelThreshold env) = distanceTravelThreshold env) := by
  have hb : ¬ baseSendDecision env w := by
    rintro ⟨h1, _, _⟩
    rcases h1 with h1 | h1
    · exact hsent h1
    · exact absurd h1 (not_le.mpr hint)
  have hs : ¬ smartSendDecision env w := by
    rintro ⟨_, _, _, _, h5, _⟩
    exact absurd h5 (not_le.mpr hdist)
  rcases runOnce_idle env w hb hs with h | h
  · exact ⟨⟨_, h, rfl, rfl, rfl, rfl, rfl, rfl, rfl⟩, u32ToFloat_of_le _⟩
  · exact ⟨⟨_, h, rfl, rfl, rfl, rfl, rfl, rfl, rfl⟩, u32ToFloat_of_le _⟩

/-- Witness of C18 amended: distance 50 against the threshold 100, at utilization 10 %. -/
theorem runOnce_below_threshold_unchanged_witness :
    (sampleWorldNear.lastGpsSend ≠ 0 ∧ distanceTravelThreshold (sampleEnv 10) = 100 ∧
      |(sampleEnv 10).latLongToMeter 470 580 500 600| = 50) ∧
    ∃ w1 : World, runOnce (sampleEnv 10) sampleWorldNear = some (5000, w1) ∧
      w1.calls = sampleWorldNear.calls ∧
      w1.lastGpsSend = sampleWorldNear.lastGpsSend ∧
      w1.lastGpsLatitude = sampleWorldNear.lastGpsLatitude ∧
      w1.lastGpsLongitude = sampleWorldNear.lastGpsLongitude ∧
      w1.prevPacketId = sampleWorldNear.prevPacketId ∧
      w1.currentGeneration = sampleWorldNear.currentGeneration ∧
      w1.ignoreRequest = sampleWorldNear.ignoreRequest :=
  ⟨⟨by decide, by decide, by norm_num [sampleEnv]⟩,
    (runOnce_below_threshold_unchanged (sampleEnv 10) sampleWorldNear (by decide) (by decide)
      (by
        norm_num [sampleEnv, sampleWorldNear, sampleWorld, distanceTravelThreshold,
          sampleConfig, u32ToFloat])).1⟩

/-- C19. The base cipher is a pass-through: for every sender, packet id and buffer,
`encrypt` and `decrypt` return the buffer as it was. For every peer, directory and engine
on either side, `encryptCurve25519_Blake2b` returns with the buffer unchanged, and
`decryptCurve25519_Blake2b` applied to that output with the same packet number returns the
original payload. -/
theorem passthrough_cipher_roundtrip (L : CryptoLib) (dbS dbR : NodeDB)
    (eS eR : CryptoEngine) (toNode fromNode packetNum numBytes : Nat) (bytes : List Nat) :
    (encrypt eS fromNode packetNum numBytes bytes).2 = bytes ∧
    (decrypt eR fromNode packetNum numBytes bytes).2 = bytes ∧
    ∃ (eS1 eR1 : CryptoEngine) (out : List Nat),
      encryptCurve25519_Blake2b L dbS eS toNode fromNode packetNum numBytes bytes =
        some (eS1, out) ∧
      out = bytes ∧
      decryptCurve25519_Blake2b L dbR eR fromNode packetNum numBytes out = some (eR1, bytes) := by
  refine ⟨rfl, rfl, ?_⟩
  have henc : ∃ eS1, encryptCurve25519_Blake2b L dbS eS toNode fromNode packetNum numBytes bytes
      = some (eS1, bytes) := by
    cases h : keyNotFound (dbS toNode)
    · obtain ⟨e1, h1⟩ := setDHKey_returns L dbS eS toNode
      exact ⟨e1, by simp [encryptCurve25519_Blake2b, h, h1, encrypt]⟩
    · exact ⟨eS, by simp [encryptCurve25519_Blake2b, h]⟩
  have hdec : ∃ eR1, decryptCurve25519_Blake2b L dbR eR fromNode packetNum numBytes bytes
      = some (eR1, bytes) := by
    cases h : keyNotFound (dbR fromNode)
    · obtain ⟨e1, h1⟩ := setDHKey_returns L dbR eR fromNode
      exact ⟨e1, by simp [decryptCurve25519_Blake2b, h, h1, decrypt]⟩
    · exact ⟨eR, by simp [decryptCurve25519_Blake2b, h]⟩
  obtain ⟨eS1, h1⟩ := henc
  obtain ⟨eR1, h2⟩ := hdec
  exact ⟨eS1, eR1, bytes, h1, rfl, h2⟩

/-- C20, the code at the failing input. Node 5 is in the directory (`num = 5`) and its
public key `00 01 01 ..` has 31 non-zero bytes, so it is not the all-zero sentinel; the
guard only looks at the first byte and takes the peer as having no key: `setDHKey` leaves
the key `aa aa ..` of an earlier peer in the slot, and `encryptCurve25519_Blake2b` and
`decryptCurve25519_Blake2b` return before `setDHKey` and the cipher are reached. -/
theorem setDHKey_rejects_key_with_leading_zero :
    (sampleDBWith 5 sampleKeyLeadingZero 5).num = 5 ∧
    (sampleDBWith 5 sampleKeyLeadingZero 5).public_key.length = 32 ∧
    (sampleDBWith 5 sampleKeyLeadingZero 5).public_key ≠ List.replicate 32 0 ∧
    keyNotFound (sampleDBWith 5 sampleKeyLeadingZero 5) = true ∧
    setDHKey sampleLib (sampleDBWith 5 sampleKeyLeadingZero) sampleEngine 5 =
      some sampleEngine ∧
    sampleEngine.key = { bytes := List.replicate 32 170, length := 32 } ∧
    encryptCurve25519_Blake2b sampleLib (sampleDBWith 5 sampleKeyLeadingZero) sampleEngine
      5 1 77 3 [10, 20, 30] = some (sampleEngine, [10, 20, 30]) ∧
    decryptCurve25519_Blake2b sampleLib (sampleDBWith 5 sampleKeyLeadingZero) sampleEngine
      5 77 3 [10, 20, 30] = some (sampleEngine, [10, 20, 30]) := by
  decide

/-- C21. For every node directory, every prior content of the key slot and every
implementation `cipher` of the virtual `encrypt` / `decrypt`, under the length contracts
of the library: `encryptCurve25519_Blake2b` and `decryptCurve25519_Blake2b` either return
at their own guard with engine and buffer untouched and the cipher not invoked, or invoke
the cipher exactly once, on the engine whose key slot `setDHKey` has replaced by the key
derived for that same peer. Whenever the guard of the caller passes, `setDHKey` takes its
deriving path, so its not-found return is not reached from these call sites, and the key
the cipher sees does not depend on what the slot held before. The base class is the
instance `cipher = encrypt` / `decrypt`. -/
theorem cipher_invoked_only_with_derived_key (L : CryptoLib) (db : NodeDB) (e : CryptoEngine)
    (cipher : Cipher) (peer fromNode packetNum numBytes : Nat) (bytes : List Nat)
    (hdh : ∀ k f, (L.dh2 k f).length = 32) (hb : ∀ d, (L.blake2b d 32).length = 32) :
    (keyNotFound (db peer) = false →
      setDHKey L db e peer = some { e with key := derivedKey L db e.private_key peer }) ∧
    encryptCurve25519_Blake2b_via cipher L db e peer fromNode packetNum numBytes bytes =
      some (if keyNotFound (db peer) then (e, bytes)
        else cipher { e with key := derivedKey L db e.private_key peer } fromNode packetNum
          numBytes bytes) ∧
    decryptCurve25519_Blake2b_via cipher L db e peer packetNum numBytes bytes =
      some (if keyNotFound (db peer) then (e, bytes)
        else cipher { e with key := derivedKey L db e.private_key peer } peer packetNum
          numBytes bytes) ∧
    encryptCurve25519_Blake2b L db e peer fromNode packetNum numBytes bytes =
      encryptCurve25519_Blake2b_via encrypt L db e peer fromNode packetNum numBytes bytes ∧
    decryptCurve25519_Blake2b L db e peer packetNum numBytes bytes =
      decryptCurve25519_Blake2b_via decrypt L db e peer packetNum numBytes bytes := by
  refine ⟨fun h => setDHKey_of_found_derivedKey L db e peer h hdh hb, ?_, ?_, rfl, rfl⟩
  · cases h : keyNotFound (db peer)
    · simp only [encryptCurve25519_Blake2b_via, h, Bool.false_eq_true, if_false,
        setDHKey_of_found_derivedKey L db e peer h hdh hb]
    · simp only [encryptCurve25519_Blake2b_via, h, if_true]
  · cases h : keyNotFound (db peer)
    · simp only [decryptCurve25519_Blake2b_via, h, Bool.false_eq_true, if_false,
        setDHKey_of_found_derivedKey L db e peer h hdh hb]
    · simp only [decryptCurve25519_Blake2b_via, h, if_true]

/-- Witness of C21: the key slot holds `aa aa ..` of an earlier peer and node 5 has a key.
The sample cipher adds the first key byte to the buffer: it runs with the first byte
`c0` of the key derived for node 5, not with `aa`, and the slot holds the derived key
afterwards. For node 9, whose key is the all-zero sentinel, the cipher is not invoked. -/
theorem cipher_invoked_only_with_derived_key_witness :
    (sampleEngine.key.bytes.headD 0 = 170 ∧
      (derivedKey sampleLib sampleDB sampleEngine.private_key 5).bytes.headD 0 = 192 ∧
      keyNotFound (sampleDB 5) = false ∧ keyNotFound (sampleDB 9) = true) ∧
    encryptCurve25519_Blake2b_via sampleCipher sampleLib sampleDB sampleEngine 5 1 77 3
        [10, 20, 30] =
      some ({ sampleEngine with key := derivedKey sampleLib sampleDB sampleEngine.private_key 5 },
        [202, 212, 222]) ∧
    encryptCurve25519_Blake2b_via sampleCipher sampleLib sampleDB sampleEngine 9 1 77 3
        [10, 20, 30] = some (sampleEngine, [10, 20, 30]) := by
  have h5 := (cipher_invoked_only_with_derived_key sampleLib sampleDB sampleEngine sampleCipher
    5 1 77 3 [10, 20, 30] (by intro k f; simp [sampleLib]) (by intro d; simp [sampleLib])).2.1
  have h9 := (cipher_invoked_only_with_derived_key sampleLib sampleDB sampleEngine sampleCipher
    9 1 77 3 [10, 20, 30] (by intro k f; simp [sampleLib]) (by intro d; simp [sampleLib])).2.1
  refine ⟨by decide, ?_, ?_⟩
  · rw [h5]
    decide
  · rw [h9]
    decide

/-- C16, the code at the failing input. Node 1 holds the private key `02 02 ..` (public
key `06 06 ..`), node 2 holds the private key `00 05 05 ..` (public key `00 0f 0f ..`);
the primitive of the sample library is commutative on this pair. On node 1 the guard of
`setDHKey` sees the first byte `00` of the peer's public key and returns: the key slot
stays as it was. On node 2 `setDHKey` installs the derived key. The two nodes do not end
with the same key. -/
theorem setDHKey_asymmetric_on_leading_zero :
    (sampleEngineWith (List.replicate 32 2)).public_key = List.replicate 32 6 ∧
    (sampleEngineWith (0 :: List.replicate 31 5)).public_key = 0 :: List.replicate 31 15 ∧
    sampleLib.dh2 (memcpy (0 :: List.replicate 31 15) 32) (memcpy (List.replicate 32 2) 32) =
      sampleLib.dh2 (memcpy (List.replicate 32 6) 32) (memcpy (0 :: List.replicate 31 5) 32) ∧
    setDHKey sampleLib (sampleDBWith 2 (0 :: List.replicate 31 15))
      (sampleEngineWith (List.replicate 32 2)) 2 = some (sampleEngineWith (List.replicate 32 2)) ∧
    (setDHKey sampleLib (sampleDBWith 1 (List.replicate 32 6))
        (sampleEngineWith (0 :: List.replicate 31 5)) 1).map (fun e => e.key) =
      some (derivedKey sampleLib (sampleDBWith 1 (List.replicate 32 6))
        (0 :: List.replicate 31 5) 1) ∧
    (sampleEngineWith (List.replicate 32 2)).key ≠
      derivedKey sampleLib (sampleDBWith 1 (List.replicate 32 6)) (0 :: List.replicate 31 5) 1 := by
  decide

end Meshtastic
